import Mathlib

/-!
# GdkTexture (gdk/gdktexture.c) and the progressive loader of the image demo

A shallow embedding of the texture object of `gdk/gdktexture.c`: the base
object with its render-data slot, the three concrete texture types (cairo
surface, pixbuf, GL) with their classes, the factory functions,
`gdk_texture_download` and `gdk_texture_release_gl`; and of the progressive
loader of `demos/gtk-demo/images.c` (`progressive_timeout`,
`cleanup_callback`), whose external calls are inputs of each run.

Conventions of the embedding.

* Pointers (`gpointer`, `GDestroyNotify`, `GdkGLContext *`) are opaque
  addresses, natural numbers with `0` for `NULL`.
* C `int` values are integers; a C `int` product wraps modulo `2^32`
  (`wrap_int`), and an `int` used where a `gsize` is expected converts modulo
  `2^64` (`to_gsize`): the LP64 conversions of the C code.
* Memory reachable from a `guchar *` is a function from byte offsets
  (relative to the pointer) to byte values.
* Calls through function pointers, failed `g_return_if_fail` checks and GPU
  readbacks are recorded in a log of events returned by each operation.
* cairo is an external library.  Its image surfaces have the format
  `CAIRO_FORMAT_ARGB32`.  A surface cairo cannot create (a width or height
  outside `0 .. 32767`, a stride that is not a multiple of 4 or is shorter
  than a row) is an error surface: it has no pixels, a context on it or with
  it as source is in error, and drawing with a context in error does nothing.
  `cairo_paint` composites the source surface over the target pixel by pixel
  with the operator of the context, which is `CAIRO_OPERATOR_OVER` for a new
  context.
-/

namespace Gdk

/-! ## Machine integers and memory -/

/-- An opaque address; `0` is `NULL`. -/
abbrev gpointer := Nat

/-- The null pointer. -/
def NULL : gpointer := 0

/-- The largest C `int`. -/
def G_MAXINT : Int := 2 ^ 31 - 1

/-- The value of an integer expression computed in C `int` (two's complement, 32 bits). -/
def wrap_int (x : Int) : Int := (x + 2 ^ 31) % 2 ^ 32 - 2 ^ 31

/-- Conversion of a C `int` to `gsize` (64 bits, unsigned). -/
def to_gsize (x : Int) : Nat := (x % 2 ^ 64).toNat

/-- Bytes reachable from a `guchar *`, by offset from the pointer. -/
abbrev Mem := Int → Nat

/-! ## Events -/

/-- What an operation does besides changing the texture: the observable calls. -/
inductive Event
  /-- a failed `g_return_if_fail` / `g_return_val_if_fail` check -/
  | critical
  /-- the `g_critical` of `GDK_TEXTURE_WARN_NOT_IMPLEMENTED_METHOD` -/
  | not_implemented
  /-- the call `self->destroy (self->data)` of a GL texture -/
  | destroy (fn data : gpointer)
  /-- the call `self->render_notify (self->render_data)` -/
  | render_notify (fn data : gpointer)
  /-- a readback `gdk_cairo_draw_from_gl` of texture `id` through `context` -/
  | gl_readback (context : gpointer) (id : Nat) (width height : Int)
  /-- the call `g_error`, which aborts the program -/
  | fatal
  deriving DecidableEq, Repr

/-! ## cairo image surfaces -/

/-- The surface types the code distinguishes (`cairo_surface_get_type`). -/
inductive cairo_surface_type_t
  | IMAGE
  | OTHER
  deriving DecidableEq, Repr

/-- The compositing operators the code uses. -/
inductive cairo_operator_t
  | OVER
  | SOURCE
  deriving DecidableEq, Repr

/-- The status of a surface or of a drawing context: usable, or in error. -/
inductive cairo_status_t
  | SUCCESS
  | ERROR
  deriving DecidableEq, Repr

/-- A cairo surface: its status and, for an image surface, its geometry and its pixel
bytes. -/
structure cairo_surface_t where
  status : cairo_status_t
  type : cairo_surface_type_t
  width : Int
  height : Int
  stride : Int
  data : Mem

/-- The largest width and height of an image surface. -/
def MAX_IMAGE_SIZE : Int := 32767

/-- The surface cairo returns in place of a surface it cannot create: it has no pixels, and
its type reads as `CAIRO_SURFACE_TYPE_IMAGE`. -/
def cairo_surface_in_error : cairo_surface_t :=
  { status := cairo_status_t.ERROR, type := cairo_surface_type_t.IMAGE, width := 0,
    height := 0, stride := 0, data := fun _ => 0 }

/-- The call `cairo_image_surface_create (CAIRO_FORMAT_ARGB32, width, height)`: a new surface,
tightly packed, all bytes zero (transparent); an error surface when the width or the height is
outside `0 .. MAX_IMAGE_SIZE`. -/
def cairo_image_surface_create (width height : Int) : cairo_surface_t :=
  if 0 ≤ width ∧ width ≤ MAX_IMAGE_SIZE ∧ 0 ≤ height ∧ height ≤ MAX_IMAGE_SIZE then
    { status := cairo_status_t.SUCCESS, type := cairo_surface_type_t.IMAGE, width := width,
      height := height, stride := 4 * width, data := fun _ => 0 }
  else cairo_surface_in_error

/-- The call `cairo_image_surface_create_for_data (data, CAIRO_FORMAT_ARGB32, width, height,
stride)`: a view of the caller's memory; an error surface when the stride is not a multiple of
4, when the width or the height is outside `0 .. MAX_IMAGE_SIZE`, or when the stride is shorter
than a row of `4 * width` bytes. -/
def cairo_image_surface_create_for_data (data : Mem) (width height stride : Int) :
    cairo_surface_t :=
  if stride % 4 ≠ 0 then cairo_surface_in_error
  else if ¬ (0 ≤ width ∧ width ≤ MAX_IMAGE_SIZE ∧ 0 ≤ height ∧ height ≤ MAX_IMAGE_SIZE) then
    cairo_surface_in_error
  else if stride < 0 ∧ stride > -(4 * width) then cairo_surface_in_error
  else if 0 ≤ stride ∧ stride < 4 * width then cairo_surface_in_error
  else
    { status := cairo_status_t.SUCCESS, type := cairo_surface_type_t.IMAGE, width := width,
      height := height, stride := stride, data := data }

/-- Whether a surface is an image surface with pixels. -/
def cairo_surface_is_image (s : cairo_surface_t) : Prop :=
  s.status = cairo_status_t.SUCCESS ∧ s.type = cairo_surface_type_t.IMAGE

instance (s : cairo_surface_t) : Decidable (cairo_surface_is_image s) := by
  unfold cairo_surface_is_image
  exact inferInstance

/-- The function `cairo_image_surface_get_width`: `0` for a surface that is not an image or is
in error. -/
def cairo_image_surface_get_width (s : cairo_surface_t) : Int :=
  if cairo_surface_is_image s then s.width else 0

/-- The function `cairo_image_surface_get_height`: `0` for a surface that is not an image or
is in error. -/
def cairo_image_surface_get_height (s : cairo_surface_t) : Int :=
  if cairo_surface_is_image s then s.height else 0

/-- The function `cairo_image_surface_get_stride`: `0` for a surface that is not an image or
is in error. -/
def cairo_image_surface_get_stride (s : cairo_surface_t) : Int :=
  if cairo_surface_is_image s then s.stride else 0

/-- The function `cairo_image_surface_get_data`: `NULL` (`none`) for a surface that is not an
image or is in error. -/
def cairo_image_surface_get_data (s : cairo_surface_t) : Option Mem :=
  if cairo_surface_is_image s then some s.data else none

/-- The caller's memory when a surface created for it is finished (`cairo_surface_finish`):
the bytes of the surface when it is a view of the memory, the memory as it was when the surface
is in error. -/
def cairo_surface_finish (surface : cairo_surface_t) (data : Mem) : Mem :=
  if surface.status = cairo_status_t.SUCCESS then surface.data else data

/-- A drawing context: its status, its target, its source surface (at origin `(0, 0)`, as at
every call site of `cairo_set_source_surface` in the code) and its operator. -/
structure cairo_t where
  status : cairo_status_t
  target : cairo_surface_t
  source : Option cairo_surface_t
  op : cairo_operator_t

/-- The function `cairo_create`: the default operator is `CAIRO_OPERATOR_OVER`; a context
created on an error surface is in error. -/
def cairo_create (target : cairo_surface_t) : cairo_t :=
  { status := target.status, target := target, source := none, op := cairo_operator_t.OVER }

/-- The call `cairo_set_source_surface (cr, surface, 0, 0)`: an error surface as source puts
the context in error; a context in error is left as it is. -/
def cairo_set_source_surface (cr : cairo_t) (surface : cairo_surface_t) : cairo_t :=
  if cr.status = cairo_status_t.ERROR then cr
  else if surface.status = cairo_status_t.ERROR then { cr with status := cairo_status_t.ERROR }
  else { cr with source := some surface }

/-- The function `cairo_set_operator`; a context in error is left as it is. -/
def cairo_set_operator (cr : cairo_t) (op : cairo_operator_t) : cairo_t :=
  if cr.status = cairo_status_t.ERROR then cr else { cr with op := op }

/-- Index of the alpha byte inside an ARGB32 pixel (a native-endian 32-bit word, little-endian
layout: B, G, R, A). -/
def ALPHA : Nat := 3

/-- Byte `c` of pixel `(x, y)` of the source of a context: transparent outside the surface
(`CAIRO_EXTEND_NONE`), opaque black when no source surface was set. -/
def source_byte (source : Option cairo_surface_t) (x y c : Nat) : Nat :=
  match source with
  | none => if c = ALPHA then 255 else 0
  | some s =>
    if (x : Int) < s.width ∧ (y : Int) < s.height then
      s.data ((y : Int) * s.stride + 4 * (x : Int) + (c : Int))
    else 0

/-- Product of two bytes scaled back to a byte, rounding as the compositor does. -/
def MUL_UN8 (a b : Nat) : Nat :=
  let t := a * b + 0x80
  ((t >>> 8) + t) >>> 8

/-- Byte `c` of the result of compositing source pixel `s` onto destination pixel `d`. -/
def composite (op : cairo_operator_t) (s d : Nat → Nat) (c : Nat) : Nat :=
  match op with
  | cairo_operator_t.SOURCE => s c
  | cairo_operator_t.OVER => min 255 (s c + MUL_UN8 (d c) (255 - s ALPHA))

/-- Composite one pixel onto memory laid out in rows of `stride` bytes: `src x y c` is byte `c`
of the source pixel `(x, y)`. -/
def paint_pixel (op : cairo_operator_t) (src : Nat → Nat → Nat → Nat) (stride : Int)
    (y x : Nat) (mem : Mem) : Mem :=
  let base : Int := (y : Int) * stride + 4 * (x : Int)
  fun off =>
    if base ≤ off ∧ off < base + 4 then
      composite op (fun c => src x y c) (fun c => mem (base + (c : Int))) (off - base).toNat
    else mem off

/-- Composite the first `n` pixels of row `y`. -/
def paint_row (op : cairo_operator_t) (src : Nat → Nat → Nat → Nat) (stride : Int) (y : Nat) :
    Nat → Mem → Mem
  | 0, mem => mem
  | n + 1, mem => paint_pixel op src stride y n (paint_row op src stride y n mem)

/-- Composite the first `n` rows, each `w` pixels wide. -/
def paint_rows (op : cairo_operator_t) (src : Nat → Nat → Nat → Nat) (stride : Int) (w : Nat) :
    Nat → Mem → Mem
  | 0, mem => mem
  | n + 1, mem => paint_row op src stride n w (paint_rows op src stride w n mem)

/-- The function `cairo_paint`: composite the source over the whole target; nothing is drawn
with a context in error. -/
def cairo_paint (cr : cairo_t) : cairo_t :=
  if cr.status = cairo_status_t.ERROR then cr
  else
    { cr with
      target :=
        { cr.target with
          data := paint_rows cr.op (source_byte cr.source) cr.target.stride
            cr.target.width.toNat cr.target.height.toNat cr.target.data } }

/-! ## Pixbufs -/

/-- A `GdkPixbuf`: 8-bit RGB (`n_channels = 3`) or RGBA, not premultiplied.  Its width and
height are positive: the library creates no pixbuf of another size. -/
structure GdkPixbuf where
  width : Int
  height : Int
  rowstride : Int
  n_channels : Int
  pixels : Mem
  width_pos : 0 < width
  height_pos : 0 < height

/-- Byte `c` of pixel `(x, y)` of a pixbuf converted to premultiplied ARGB32. -/
def pixbuf_byte (pixbuf : GdkPixbuf) (x y c : Nat) : Nat :=
  let p : Int := (y : Int) * pixbuf.rowstride + pixbuf.n_channels * (x : Int)
  if pixbuf.n_channels = 3 then
    if c = ALPHA then 0xFF else pixbuf.pixels (p + 2 - (c : Int))
  else
    if c = ALPHA then pixbuf.pixels (p + 3)
    else MUL_UN8 (pixbuf.pixels (p + 2 - (c : Int))) (pixbuf.pixels (p + 3))

/-- Modelled from the spec: `gdk_cairo_surface_paint_pixbuf` (gdk/gdkcairo.c is not among the
sources).  It copies the pixels of the decoded image into the surface in the requested format,
premultiplying when the source has an alpha channel; nothing is copied into a surface in
error. -/
def gdk_cairo_surface_paint_pixbuf (surface : cairo_surface_t) (pixbuf : GdkPixbuf) :
    cairo_surface_t :=
  if surface.status = cairo_status_t.ERROR then surface
  else
    { surface with
      data := paint_rows cairo_operator_t.SOURCE (pixbuf_byte pixbuf) surface.stride
        pixbuf.width.toNat pixbuf.height.toNat surface.data }

/-- Modelled from the spec: `gdk_cairo_surface_create_from_pixbuf (pixbuf, 1, NULL)`
(gdk/gdkcairo.c is not among the sources): a new surface holding the pixels of the pixbuf. -/
def gdk_cairo_surface_create_from_pixbuf (pixbuf : GdkPixbuf) : cairo_surface_t :=
  gdk_cairo_surface_paint_pixbuf (cairo_image_surface_create pixbuf.width pixbuf.height) pixbuf

/-! ## The GL server -/

/-- The GPU side: which window a context draws to, and the pixels a readback of texture `id`
at a given size delivers (tightly packed ARGB32 rows). -/
structure GLServer where
  gdk_gl_context_get_window : gpointer → gpointer
  read_pixels : gpointer → Nat → Int → Int → Mem

/-- Modelled from the spec: `gdk_cairo_draw_from_gl (cr, window, source, GL_TEXTURE, 1, 0, 0,
width, height)` (gdk/gdkgl.c is not among the sources).  It issues a GPU readback into a
temporary surface-shaped target, which is composited into the target of `cr`. -/
def gdk_cairo_draw_from_gl (gl : GLServer) (cr : cairo_t) (window : gpointer) (source : Nat)
    (width height : Int) : cairo_t :=
  let image := cairo_image_surface_create_for_data (gl.read_pixels window source width height)
    width height (4 * width)
  cairo_paint (cairo_set_source_surface cr image)

/-! ## Textures -/

/-- The fields of `struct _GdkGLTexture` after the parent instance. -/
structure GdkGLTexture where
  context : gpointer
  id : Nat
  saved : Option cairo_surface_t
  destroy : gpointer
  data : gpointer

/-- The concrete type of a texture with the fields of its instance struct. -/
inductive Instance
  | cairo (surface : cairo_surface_t)
  | pixbuf (pixbuf : GdkPixbuf)
  | gl (self : GdkGLTexture)

/-- The fields of `struct _GdkTexture` and the concrete instance. -/
structure GdkTexture where
  width : Int
  height : Int
  render_key : gpointer
  render_data : gpointer
  render_notify : gpointer
  inst : Instance

/-- The properties of the class. -/
inductive PropId
  | PROP_WIDTH
  | PROP_HEIGHT
  deriving DecidableEq, Repr

/-- The function `gdk_texture_set_property`. -/
def gdk_texture_set_property (self : GdkTexture) (prop_id : PropId) (value : Int) : GdkTexture :=
  match prop_id with
  | PropId.PROP_WIDTH => { self with width := value }
  | PropId.PROP_HEIGHT => { self with height := value }

/-- Setting a construct property declared by `g_param_spec_int (..., 1, G_MAXINT, 1, ...)`:
GObject passes a value to `set_property` only when it lies in the declared range. -/
def object_set_property (self : GdkTexture) (prop_id : PropId) (value : Int) : GdkTexture :=
  if 1 ≤ value ∧ value ≤ G_MAXINT then gdk_texture_set_property self prop_id value else self

/-- The call `g_object_new (type, "width", width, "height", height, NULL)`: a zero-filled
instance on which the two construct properties are set. -/
def g_object_new (inst : Instance) (width height : Int) : GdkTexture :=
  let self : GdkTexture :=
    { width := 0, height := 0, render_key := NULL, render_data := NULL, render_notify := NULL,
      inst := inst }
  object_set_property (object_set_property self PropId.PROP_WIDTH width) PropId.PROP_HEIGHT height

/-- The function `gdk_texture_get_width`. -/
def gdk_texture_get_width (texture : GdkTexture) : Int := texture.width

/-- The function `gdk_texture_get_height`. -/
def gdk_texture_get_height (texture : GdkTexture) : Int := texture.height

/-! ## Classes -/

/-- The concrete types registered by `G_DEFINE_TYPE` (the base `GdkTexture` is abstract). -/
inductive GType
  | GDK_TYPE_CAIRO_TEXTURE
  | GDK_TYPE_PIXBUF_TEXTURE
  | GDK_TYPE_GL_TEXTURE
  deriving DecidableEq, Repr

/-- The functions a class can hold in its `download` slot. -/
inductive DownloadFunc
  | gdk_texture_real_download
  | gdk_cairo_texture_download
  | gdk_pixbuf_texture_download
  | gdk_gl_texture_download
  deriving DecidableEq, Repr

/-- The functions a class can hold in its `download_surface` slot. -/
inductive DownloadSurfaceFunc
  | gdk_texture_real_download_surface
  | gdk_cairo_texture_download_surface
  | gdk_pixbuf_texture_download_surface
  deriving DecidableEq, Repr

/-- The virtual functions of `GdkTextureClass`. -/
structure GdkTextureClass where
  download : DownloadFunc
  download_surface : DownloadSurfaceFunc
  deriving DecidableEq, Repr

/-- The function `gdk_texture_class_init`: the slots of the base class. -/
def gdk_texture_class_init : GdkTextureClass :=
  { download := DownloadFunc.gdk_texture_real_download,
    download_surface := DownloadSurfaceFunc.gdk_texture_real_download_surface }

/-- The function `gdk_cairo_texture_class_init`, applied to the class inherited from the
parent. -/
def gdk_cairo_texture_class_init (klass : GdkTextureClass) : GdkTextureClass :=
  let klass := { klass with download := DownloadFunc.gdk_cairo_texture_download }
  { klass with download_surface := DownloadSurfaceFunc.gdk_cairo_texture_download_surface }

/-- The function `gdk_pixbuf_texture_class_init`, applied to the class inherited from the
parent. -/
def gdk_pixbuf_texture_class_init (klass : GdkTextureClass) : GdkTextureClass :=
  let klass := { klass with download := DownloadFunc.gdk_pixbuf_texture_download }
  { klass with download_surface := DownloadSurfaceFunc.gdk_pixbuf_texture_download_surface }

/-- The function `gdk_gl_texture_class_init`, applied to the class inherited from the parent:
only `download` is set. -/
def gdk_gl_texture_class_init (klass : GdkTextureClass) : GdkTextureClass :=
  { klass with download := DownloadFunc.gdk_gl_texture_download }

/-- The type of an instance. -/
def G_OBJECT_TYPE (texture : GdkTexture) : GType :=
  match texture.inst with
  | Instance.cairo _ => GType.GDK_TYPE_CAIRO_TEXTURE
  | Instance.pixbuf _ => GType.GDK_TYPE_PIXBUF_TEXTURE
  | Instance.gl _ => GType.GDK_TYPE_GL_TEXTURE

/-- The class of a type: the class of the parent `GDK_TYPE_TEXTURE`, on which the `class_init`
of the type has run. -/
def g_type_class (type : GType) : GdkTextureClass :=
  match type with
  | GType.GDK_TYPE_CAIRO_TEXTURE => gdk_cairo_texture_class_init gdk_texture_class_init
  | GType.GDK_TYPE_PIXBUF_TEXTURE => gdk_pixbuf_texture_class_init gdk_texture_class_init
  | GType.GDK_TYPE_GL_TEXTURE => gdk_gl_texture_class_init gdk_texture_class_init

/-- The class of an instance, `GDK_TEXTURE_GET_CLASS (texture)`. -/
def GDK_TEXTURE_GET_CLASS (texture : GdkTexture) : GdkTextureClass :=
  g_type_class (G_OBJECT_TYPE texture)

/-! ## The render-data slot -/

/-- The function `gdk_texture_set_render_data`: the return value, the texture afterwards and
the events. -/
def gdk_texture_set_render_data (self : GdkTexture) (key data notify : gpointer) :
    Bool × GdkTexture × List Event :=
  if data = NULL then (false, self, [Event.critical])
  else if self.render_key ≠ NULL then (false, self, [])
  else
    (true, { self with render_key := key, render_data := data, render_notify := notify }, [])

/-- The function `gdk_texture_clear_render_data`. -/
def gdk_texture_clear_render_data (self : GdkTexture) : GdkTexture × List Event :=
  ({ self with render_key := NULL, render_data := NULL, render_notify := NULL },
    if self.render_notify ≠ NULL then [Event.render_notify self.render_notify self.render_data]
    else [])

/-- The function `gdk_texture_get_render_data`. -/
def gdk_texture_get_render_data (self : GdkTexture) (key : gpointer) : gpointer :=
  if self.render_key ≠ key then NULL else self.render_data

/-- The function `gdk_texture_dispose`, the `dispose` of the base class. -/
def gdk_texture_dispose (self : GdkTexture) : GdkTexture × List Event :=
  gdk_texture_clear_render_data self

/-- The function `gdk_texture_real_download`, the `download` of the abstract base class. -/
def gdk_texture_real_download (data : Mem) : Mem × List Event :=
  (data, [Event.not_implemented])

/-! ## GdkCairoTexture -/

/-- The function `gdk_cairo_texture_download`; `surface` is `self->surface`.  The `gsize`
stride is passed for the `int stride` parameter of `cairo_image_surface_create_for_data`. -/
def gdk_cairo_texture_download (texture : GdkTexture) (surface : cairo_surface_t) (data : Mem)
    (stride : Nat) : Mem × List Event :=
  let target := cairo_image_surface_create_for_data data texture.width texture.height
    (wrap_int stride)
  let cr := cairo_create target
  let cr := cairo_set_source_surface cr surface
  let cr := cairo_set_operator cr cairo_operator_t.SOURCE
  let cr := cairo_paint cr
  (cairo_surface_finish cr.target data, [])

/-- The function `gdk_cairo_texture_download_surface`: a reference to `self->surface`. -/
def gdk_cairo_texture_download_surface (surface : cairo_surface_t) : cairo_surface_t := surface

/-! ## GdkPixbufTexture -/

/-- The function `gdk_pixbuf_texture_download`; `pixbuf` is `self->pixbuf`.  The `gsize` stride
is passed for the `int stride` parameter of `cairo_image_surface_create_for_data`. -/
def gdk_pixbuf_texture_download (texture : GdkTexture) (pixbuf : GdkPixbuf) (data : Mem)
    (stride : Nat) : Mem × List Event :=
  let surface := cairo_image_surface_create_for_data data texture.width texture.height
    (wrap_int stride)
  (cairo_surface_finish (gdk_cairo_surface_paint_pixbuf surface pixbuf) data, [])

/-- The function `gdk_pixbuf_texture_download_surface`. -/
def gdk_pixbuf_texture_download_surface (pixbuf : GdkPixbuf) : cairo_surface_t :=
  gdk_cairo_surface_create_from_pixbuf pixbuf

/-! ## GdkGLTexture -/

/-- The block `if (self->destroy) { self->destroy (self->data); self->destroy = NULL;
self->data = NULL; }` of `gdk_gl_texture_dispose` and `gdk_texture_release_gl`. -/
def call_destroy (self : GdkGLTexture) : GdkGLTexture × List Event :=
  if self.destroy ≠ NULL then
    ({ self with destroy := NULL, data := NULL }, [Event.destroy self.destroy self.data])
  else (self, [])

/-- The function `gdk_gl_texture_dispose`, chaining up to `gdk_texture_dispose`. -/
def gdk_gl_texture_dispose (texture : GdkTexture) (self : GdkGLTexture) :
    GdkTexture × List Event :=
  let r := call_destroy self
  let self := r.1
  let self := { self with context := NULL }
  let self := { self with id := 0 }
  let self := { self with saved := none }
  let p := gdk_texture_dispose { texture with inst := Instance.gl self }
  (p.1, r.2 ++ p.2)

/-- The function `gdk_gl_texture_download`.  The `gsize` stride is passed for the `int stride`
parameter of `cairo_image_surface_create_for_data`; the operator of `cr` is left at its
default. -/
def gdk_gl_texture_download (gl : GLServer) (texture : GdkTexture) (self : GdkGLTexture)
    (data : Mem) (stride : Nat) : Mem × List Event :=
  let surface := cairo_image_surface_create_for_data data texture.width texture.height
    (wrap_int stride)
  let cr := cairo_create surface
  match self.saved with
  | some saved =>
    let cr := cairo_set_source_surface cr saved
    let cr := cairo_paint cr
    (cairo_surface_finish cr.target data, [])
  | none =>
    let window := gl.gdk_gl_context_get_window self.context
    let cr := gdk_cairo_draw_from_gl gl cr window self.id texture.width texture.height
    (cairo_surface_finish cr.target data,
      [Event.gl_readback self.context self.id texture.width texture.height])

/-- The function `gdk_texture_release_gl`. -/
def gdk_texture_release_gl (gl : GLServer) (texture : GdkTexture) : GdkTexture × List Event :=
  match texture.inst with
  | Instance.gl self =>
    match self.saved with
    | some _ => (texture, [Event.critical])
    | none =>
      let saved := cairo_image_surface_create texture.width texture.height
      let cr := cairo_create saved
      let window := gl.gdk_gl_context_get_window self.context
      let cr := gdk_cairo_draw_from_gl gl cr window self.id texture.width texture.height
      let readback := Event.gl_readback self.context self.id texture.width texture.height
      let self := { self with saved := some cr.target }
      let r := call_destroy self
      let self := r.1
      let self := { self with context := NULL }
      let self := { self with id := 0 }
      ({ texture with inst := Instance.gl self }, readback :: r.2)
  | _ => (texture, [Event.critical])

/-! ## Download -/

/-- A call through the `download` slot of a class.  Each implementation starts with the cast
of `texture` to its own instance type; a failed cast is reported and nothing is written. -/
def call_download (gl : GLServer) (download : DownloadFunc) (texture : GdkTexture) (data : Mem)
    (stride : Nat) : Mem × List Event :=
  match download with
  | DownloadFunc.gdk_texture_real_download => gdk_texture_real_download data
  | DownloadFunc.gdk_cairo_texture_download =>
    match texture.inst with
    | Instance.cairo surface => gdk_cairo_texture_download texture surface data stride
    | _ => (data, [Event.critical])
  | DownloadFunc.gdk_pixbuf_texture_download =>
    match texture.inst with
    | Instance.pixbuf pixbuf => gdk_pixbuf_texture_download texture pixbuf data stride
    | _ => (data, [Event.critical])
  | DownloadFunc.gdk_gl_texture_download =>
    match texture.inst with
    | Instance.gl self => gdk_gl_texture_download gl texture self data stride
    | _ => (data, [Event.critical])

/-- The function `gdk_texture_download`: the caller's memory after the call (`none` for a
`NULL` pointer) and the events.  The bound `gdk_texture_get_width (texture) * 4` is a C `int`
product, converted to `gsize` for the comparison with `stride`. -/
def gdk_texture_download (gl : GLServer) (texture : GdkTexture) (data : Option Mem)
    (stride : Nat) : Option Mem × List Event :=
  match data with
  | none => (none, [Event.critical])
  | some mem =>
    if stride ≥ to_gsize (wrap_int (gdk_texture_get_width texture * 4)) then
      let r := call_download gl (GDK_TEXTURE_GET_CLASS texture).download texture mem stride
      (some r.1, r.2)
    else (some mem, [Event.critical])

/-- The function `gdk_texture_real_download_surface`, the `download_surface` of the base
class. -/
def gdk_texture_real_download_surface (gl : GLServer) (texture : GdkTexture) :
    cairo_surface_t × List Event :=
  let surface := cairo_image_surface_create texture.width texture.height
  let r := gdk_texture_download gl texture (cairo_image_surface_get_data surface)
    (to_gsize (cairo_image_surface_get_stride surface))
  ({ surface with data := r.1.getD surface.data }, r.2)

/-- A call through the `download_surface` slot of a class. -/
def call_download_surface (gl : GLServer) (download_surface : DownloadSurfaceFunc)
    (texture : GdkTexture) : cairo_surface_t × List Event :=
  match download_surface with
  | DownloadSurfaceFunc.gdk_texture_real_download_surface =>
    gdk_texture_real_download_surface gl texture
  | DownloadSurfaceFunc.gdk_cairo_texture_download_surface =>
    match texture.inst with
    | Instance.cairo surface => (gdk_cairo_texture_download_surface surface, [])
    | _ => (cairo_image_surface_create 0 0, [Event.critical])
  | DownloadSurfaceFunc.gdk_pixbuf_texture_download_surface =>
    match texture.inst with
    | Instance.pixbuf pixbuf => (gdk_pixbuf_texture_download_surface pixbuf, [])
    | _ => (cairo_image_surface_create 0 0, [Event.critical])

/-- The function `gdk_texture_download_surface`. -/
def gdk_texture_download_surface (gl : GLServer) (texture : GdkTexture) :
    cairo_surface_t × List Event :=
  call_download_surface gl (GDK_TEXTURE_GET_CLASS texture).download_surface texture

/-- The `dispose` of the class of a texture. -/
def dispose (texture : GdkTexture) : GdkTexture × List Event :=
  match texture.inst with
  | Instance.gl self => gdk_gl_texture_dispose texture self
  | _ => gdk_texture_dispose texture

/-! ## Factory functions -/

/-- The function `gdk_texture_new_for_surface`: `none` is `NULL`. -/
def gdk_texture_new_for_surface (surface : cairo_surface_t) : Option GdkTexture × List Event :=
  if surface.type ≠ cairo_surface_type_t.IMAGE then (none, [Event.critical])
  else if ¬ cairo_image_surface_get_width surface > 0 then (none, [Event.critical])
  else if ¬ cairo_image_surface_get_height surface > 0 then (none, [Event.critical])
  else
    (some (g_object_new (Instance.cairo surface) (cairo_image_surface_get_width surface)
      (cairo_image_surface_get_height surface)), [])

/-- The function `gdk_texture_new_for_data`. -/
def gdk_texture_new_for_data (data : Mem) (width height stride : Int) :
    Option GdkTexture × List Event :=
  if ¬ width > 0 then (none, [Event.critical])
  else if ¬ height > 0 then (none, [Event.critical])
  else
    let original := cairo_image_surface_create_for_data data width height stride
    let copy := cairo_image_surface_create width height
    let cr := cairo_create copy
    let cr := cairo_set_source_surface cr original
    let cr := cairo_paint cr
    gdk_texture_new_for_surface cr.target

/-- The function `gdk_texture_new_for_pixbuf`: the argument is `none` when it is not a
`GdkPixbuf` (`GDK_IS_PIXBUF` fails). -/
def gdk_texture_new_for_pixbuf (pixbuf : Option GdkPixbuf) : Option GdkTexture × List Event :=
  match pixbuf with
  | none => (none, [Event.critical])
  | some pixbuf => (some (g_object_new (Instance.pixbuf pixbuf) pixbuf.width pixbuf.height), [])

/-- The function `gdk_texture_new_for_gl`; `is_gl_context` is the outcome of
`GDK_IS_GL_CONTEXT (context)`, which fails on `NULL`. -/
def gdk_texture_new_for_gl (is_gl_context : Bool) (context : gpointer) (id : Nat)
    (width height : Int) (destroy data : gpointer) : Option GdkTexture × List Event :=
  if ¬ (context ≠ NULL ∧ is_gl_context = true) then (none, [Event.critical])
  else if ¬ id ≠ 0 then (none, [Event.critical])
  else if ¬ width > 0 then (none, [Event.critical])
  else if ¬ height > 0 then (none, [Event.critical])
  else
    let zero : GdkGLTexture := { context := NULL, id := 0, saved := none, destroy := NULL,
                                 data := NULL }
    let texture := g_object_new (Instance.gl zero) width height
    let self : GdkGLTexture := { zero with context := context }
    let self := { self with id := id }
    let self := { self with destroy := destroy }
    let self := { self with data := data }
    (some { texture with inst := Instance.gl self }, [])

/-- The function `gdk_texture_new_from_resource`; `pixbuf` is what
`gdk_pixbuf_new_from_resource` returns for the path.  When the resource is not a valid image
`g_error` aborts the program and nothing is returned. -/
def gdk_texture_new_from_resource (resource_path : gpointer) (pixbuf : Option GdkPixbuf) :
    Option GdkTexture × List Event :=
  if resource_path = NULL then (none, [Event.critical])
  else
    match pixbuf with
    | none => (none, [Event.fatal])
    | some pixbuf => gdk_texture_new_for_pixbuf (some pixbuf)

/-- The function `gdk_texture_new_from_file`; `is_file` is the outcome of `G_IS_FILE (file)`,
`error_clear` the outcome of `error == NULL || *error == NULL`, `stream` what `g_file_read`
returns and `pixbuf` what `gdk_pixbuf_new_from_stream` returns. -/
def gdk_texture_new_from_file (is_file error_clear : Bool) (stream : gpointer)
    (pixbuf : Option GdkPixbuf) : Option GdkTexture × List Event :=
  if ¬ is_file = true then (none, [Event.critical])
  else if ¬ error_clear = true then (none, [Event.critical])
  else if stream = NULL then (none, [])
  else
    match pixbuf with
    | none => (none, [])
    | some pixbuf => gdk_texture_new_for_pixbuf (some pixbuf)

/-! ## Sequences of calls on one texture -/

/-- A call of the public interface on a texture. -/
inductive Op
  | download (data : Option Mem) (stride : Nat)
  | download_surface
  | set_render_data (key data notify : gpointer)
  | clear_render_data
  | get_render_data (key : gpointer)
  | release_gl
  | dispose

/-- What a call returns or leaves in caller memory. -/
inductive Ret
  | void
  | bool (b : Bool)
  | pointer (p : gpointer)
  | surface (s : cairo_surface_t)
  | buffer (mem : Option Mem)

/-- The outcome of one call: the texture afterwards, the result and the events. -/
structure Outcome where
  tex : GdkTexture
  ret : Ret
  log : List Event

/-- One call on a texture. -/
def step (gl : GLServer) (t : GdkTexture) : Op → Outcome
  | Op.download data stride =>
    let r := gdk_texture_download gl t data stride
    { tex := t, ret := Ret.buffer r.1, log := r.2 }
  | Op.download_surface =>
    let r := gdk_texture_download_surface gl t
    { tex := t, ret := Ret.surface r.1, log := r.2 }
  | Op.set_render_data key data notify =>
    let r := gdk_texture_set_render_data t key data notify
    { tex := r.2.1, ret := Ret.bool r.1, log := r.2.2 }
  | Op.clear_render_data =>
    let r := gdk_texture_clear_render_data t
    { tex := r.1, ret := Ret.void, log := r.2 }
  | Op.get_render_data key =>
    { tex := t, ret := Ret.pointer (gdk_texture_get_render_data t key), log := [] }
  | Op.release_gl =>
    let r := gdk_texture_release_gl gl t
    { tex := r.1, ret := Ret.void, log := r.2 }
  | Op.dispose =>
    let r := dispose t
    { tex := r.1, ret := Ret.void, log := r.2 }

/-- A sequence of calls on a texture: the texture afterwards and the outcome of every call, in
order. -/
def run (gl : GLServer) : GdkTexture → List Op → GdkTexture × List Outcome
  | t, [] => (t, [])
  | t, op :: ops =>
    let o := step gl t op
    let r := run gl o.tex ops
    (r.1, o :: r.2)

/-! ## Auxiliary definitions of the statements -/

/-- Whether an event is a call of the destroy callback of a GL texture. -/
def Event.is_destroy : Event → Bool
  | Event.destroy _ _ => true
  | _ => false

/-- The calls of the destroy callback in a log. -/
def destroy_calls (log : List Event) : List Event := log.filter Event.is_destroy

/-- The events of a sequence of calls, in order. -/
def events (outs : List Outcome) : List Event := (outs.map Outcome.log).flatten

/-- The calls `gdk_texture_release_gl`, `gdk_texture_download` and `dispose`. -/
def Op.is_gl_lifetime : Op → Bool
  | Op.release_gl => true
  | Op.download _ _ => true
  | Op.dispose => true
  | _ => false

/-- The calls `gdk_texture_download`. -/
def Op.is_download : Op → Bool
  | Op.download _ _ => true
  | _ => false

/-- The calls `gdk_texture_release_gl` and `dispose`. -/
def Op.is_release_or_dispose : Op → Bool
  | Op.release_gl => true
  | Op.dispose => true
  | _ => false

/-- The destroy callback of a texture is gone: it is a GL texture whose `destroy` is `NULL`. -/
def destroy_gone (t : GdkTexture) : Prop :=
  ∃ self : GdkGLTexture, t.inst = Instance.gl self ∧ self.destroy = NULL

/-- The texture is a GL texture as constructed: nothing saved, `destroy` and `data` as given. -/
def destroy_pending (destroy data : gpointer) (t : GdkTexture) : Prop :=
  ∃ self : GdkGLTexture, t.inst = Instance.gl self ∧ self.saved = none ∧
    self.destroy = destroy ∧ self.data = data

/-- A 1x1 cairo texture with an empty render-data slot. -/
def tex_1x1 : GdkTexture := g_object_new (Instance.cairo (cairo_image_surface_create 1 1)) 1 1

/-- The cast `GDK_GL_TEXTURE (texture)`, `none` when the texture is not a GL texture. -/
def GDK_GL_TEXTURE (texture : GdkTexture) : Option GdkGLTexture :=
  match texture.inst with
  | Instance.gl self => some self
  | _ => none

/-- A GL server whose readbacks deliver transparent pixels (all bytes zero). -/
def gl_clear : GLServer :=
  { gdk_gl_context_get_window := fun context => context, read_pixels := fun _ _ _ _ _ => 0 }

/-- A GL server whose readbacks deliver half-transparent grey pixels (64, 64, 64, 128). -/
def gl_grey : GLServer :=
  { gdk_gl_context_get_window := fun context => context,
    read_pixels := fun _ _ _ _ off => if off % 4 = 3 then 128 else 64 }

/-- A buffer filled with the byte `v`. -/
def filled (v : Nat) : Mem := fun _ => v

/-- A buffer of opaque red ARGB32 pixels (bytes 0, 0, 255, 255). -/
def red_pixels : Mem := fun off => if off % 4 = 0 ∨ off % 4 = 1 then 0 else 255

/-- The GL texture `gdk_texture_new_for_gl (context 1, id 7, width, height, destroy, data)`
after `gdk_texture_release_gl`. -/
def released (gl : GLServer) (width height : Int) (destroy data : gpointer) :
    Option GdkTexture :=
  (gdk_texture_new_for_gl true 1 7 width height destroy data).1.map
    (fun t => (gdk_texture_release_gl gl t).1)

/-- The caller memory after `gdk_texture_download` on a texture a factory returned. -/
def downloaded (gl : GLServer) (texture : Option GdkTexture) (buffer : Mem) (stride : Nat) :
    Option Mem :=
  texture.bind (fun t => (gdk_texture_download gl t (some buffer) stride).1)

/-- The texture reports width `w` and height `h`, now and after each call of a sequence. -/
def keeps_size (gl : GLServer) (ops : List Op) (w h : Int) (t : GdkTexture) : Prop :=
  gdk_texture_get_width t = w ∧ gdk_texture_get_height t = h ∧
    ∀ o ∈ (run gl t ops).2, gdk_texture_get_width o.tex = w ∧ gdk_texture_get_height o.tex = h

/-- A sequence of calls on a GL texture: the render-data calls, downloads and a release. -/
def sample_ops : List Op :=
  [Op.set_render_data 9 5 7, Op.download (some (filled 0)) 16, Op.get_render_data 9,
   Op.set_render_data 3 4 0, Op.release_gl, Op.download_surface, Op.set_render_data NULL 1 2,
   Op.release_gl]

/-- A sequence of downloads, releases and a dispose of a GL texture. -/
def lifetime_ops : List Op :=
  [Op.download (some (filled 0)) 16, Op.release_gl, Op.download (some (filled 0)) 16,
   Op.release_gl, Op.dispose]

/-- The GL texture of the scenario: context 1, id 7, 4x4, destroy callback 3 with data 5,
in ACTIVE state. -/
def gl_4x4 : GdkTexture :=
  { width := 4, height := 4, render_key := NULL, render_data := NULL, render_notify := NULL,
    inst := Instance.gl { context := 1, id := 7, saved := none, destroy := 3, data := 5 } }

/-- Whether an event is a call of the release callback of the render-data slot. -/
def Event.is_render_notify : Event → Bool
  | Event.render_notify _ _ => true
  | _ => false

/-- The calls of the release callback of the render-data slot in a log. -/
def render_notify_calls (log : List Event) : List Event := log.filter Event.is_render_notify

/-- Whether an event is a GPU readback. -/
def Event.is_readback : Event → Bool
  | Event.gl_readback _ _ _ _ => true
  | _ => false

/-- The GPU readbacks in a log. -/
def readbacks (log : List Event) : List Event := log.filter Event.is_readback

/-- A 2x2 GL texture in ACTIVE state with no destroy callback, a data pointer 5 and the
render-data entry `(9, 6, 8)`. -/
def gl_2x2 : GdkTexture :=
  { width := 2, height := 2, render_key := 9, render_data := 6, render_notify := 8,
    inst := Instance.gl { context := 1, id := 7, saved := none, destroy := NULL, data := 5 } }

/-! ## The two states of a GL texture -/

/-- The ACTIVE shape of a GL texture: no snapshot, a context and a texture id. -/
def ACTIVE (self : GdkGLTexture) : Prop :=
  self.saved.isNone = true ∧ self.context ≠ NULL ∧ self.id ≠ 0

/-- The RELEASED shape of a GL texture: a snapshot, no context, no id, no destroy callback. -/
def RELEASED (self : GdkGLTexture) : Prop :=
  self.saved.isSome = true ∧ self.context = NULL ∧ self.id = 0 ∧ self.destroy = NULL

/-- The texture is a GL texture in RELEASED shape. -/
def is_released (t : GdkTexture) : Prop :=
  ∃ self : GdkGLTexture, GDK_GL_TEXTURE t = some self ∧ RELEASED self

/-- The states of the GL texture constructed from `context`, `id`, `destroy` and `data`:
either as constructed, or released, with `data` cleared when there was a destroy callback. -/
def gl_lifecycle (context : gpointer) (id : Nat) (destroy data : gpointer) (t : GdkTexture) :
    Prop :=
  ∃ self : GdkGLTexture, t.inst = Instance.gl self ∧
    ((self.saved = none ∧ self.context = context ∧ self.id = id ∧ self.destroy = destroy ∧
        self.data = data) ∨
      (self.saved.isSome = true ∧ self.context = NULL ∧ self.id = 0 ∧ self.destroy = NULL ∧
        self.data = if destroy = NULL then data else NULL))

/-- A sequence of calls on a GL texture with render-data calls, downloads and releases. -/
def gl_ops : List Op :=
  [Op.download (some (filled 0)) 16, Op.set_render_data 9 5 7, Op.download_surface,
   Op.release_gl, Op.download (some (filled 0)) 16, Op.clear_render_data, Op.release_gl,
   Op.get_render_data 9, Op.download_surface]

/-! ## The progressive loader of the demo (demos/gtk-demo/images.c) -/

/-- The static variables of `images.c`. -/
structure Images where
  window : gpointer
  pixbuf_loader : gpointer
  load_timeout : Nat
  image_stream : gpointer
  deriving DecidableEq, Repr

/-- The outcomes of the external calls one run of `progressive_timeout` can make. -/
structure Outcomes where
  /-- the result of `g_input_stream_read` -/
  bytes_read : Int
  /-- whether `gdk_pixbuf_loader_write` succeeds -/
  write_ok : Bool
  /-- whether `g_input_stream_close` succeeds -/
  stream_close_ok : Bool
  /-- whether `gdk_pixbuf_loader_close` succeeds -/
  loader_close_ok : Bool
  /-- the result of `g_resources_open_stream` -/
  opened : gpointer
  /-- the result of `gdk_pixbuf_loader_new` -/
  new_loader : gpointer
  deriving DecidableEq, Repr

/-- The external calls of the loader, as they are made. -/
inductive Call
  /-- the call `g_input_stream_read (image_stream, buf, 256, NULL, &error)` -/
  | read (stream : gpointer)
  /-- the call `gdk_pixbuf_loader_write (pixbuf_loader, buf, bytes_read, &error)` -/
  | write (loader : gpointer) (count : Int)
  /-- the call `g_input_stream_close` -/
  | stream_close (stream : gpointer)
  /-- the call `gdk_pixbuf_loader_close` -/
  | loader_close (loader : gpointer)
  /-- the call `g_object_unref` -/
  | unref (object : gpointer)
  /-- an error dialog is created and shown (`gtk_message_dialog_new`, `gtk_widget_show`) -/
  | dialog
  /-- the call `g_resources_open_stream ("/images/alphatest.png", 0, &error)` -/
  | open_stream
  /-- the call `gdk_pixbuf_loader_new` followed by the two `g_signal_connect` -/
  | loader_new
  /-- the call `g_source_remove` -/
  | source_remove (id : Nat)
  deriving DecidableEq, Repr

/-- The function `progressive_timeout`: the return value (`TRUE` leaves the timeout
installed), the static variables afterwards and the external calls made. -/
def progressive_timeout (s : Images) (io : Outcomes) : Bool × Images × List Call :=
  if s.image_stream ≠ NULL then
    let calls := [Call.read s.image_stream]
    if io.bytes_read < 0 then
      (false, { s with image_stream := NULL, load_timeout := 0 },
        calls ++ [Call.unref s.image_stream, Call.dialog])
    else
      let calls := calls ++ [Call.write s.pixbuf_loader io.bytes_read]
      if ¬ io.write_ok = true then
        (false, { s with image_stream := NULL, load_timeout := 0 },
          calls ++ [Call.unref s.image_stream, Call.dialog])
      else if io.bytes_read = 0 then
        let calls := calls ++ [Call.stream_close s.image_stream]
        if ¬ io.stream_close_ok = true then
          (false, { s with image_stream := NULL, pixbuf_loader := NULL, load_timeout := 0 },
            calls ++ [Call.dialog, Call.unref s.image_stream, Call.unref s.pixbuf_loader])
        else
          let calls := calls ++ [Call.unref s.image_stream, Call.loader_close s.pixbuf_loader]
          if ¬ io.loader_close_ok = true then
            (false, { s with image_stream := NULL, pixbuf_loader := NULL, load_timeout := 0 },
              calls ++ [Call.dialog, Call.unref s.pixbuf_loader])
          else
            (true, { s with image_stream := NULL, pixbuf_loader := NULL },
              calls ++ [Call.unref s.pixbuf_loader])
      else (true, s, calls)
  else
    let s1 := { s with image_stream := io.opened }
    if s1.image_stream = NULL then
      (false, { s1 with load_timeout := 0 }, [Call.open_stream, Call.dialog])
    else
      let closing :=
        if s1.pixbuf_loader ≠ NULL then
          [Call.loader_close s1.pixbuf_loader, Call.unref s1.pixbuf_loader]
        else []
      (true, { s1 with pixbuf_loader := io.new_loader },
        [Call.open_stream] ++ closing ++ [Call.loader_new])

/-- The function `start_progressive_loading`; `id` is the source id `g_timeout_add`
returns. -/
def start_progressive_loading (s : Images) (id : Nat) : Images :=
  { s with load_timeout := id }

/-- The function `cleanup_callback`. -/
def cleanup_callback (s : Images) : Images × List Call :=
  let r1 : Images × List Call :=
    if s.load_timeout ≠ 0 then
      ({ s with load_timeout := 0 }, [Call.source_remove s.load_timeout])
    else (s, [])
  let r2 : Images × List Call :=
    if r1.1.pixbuf_loader ≠ NULL then
      ({ r1.1 with pixbuf_loader := NULL },
        r1.2 ++ [Call.loader_close r1.1.pixbuf_loader, Call.unref r1.1.pixbuf_loader])
    else r1
  if r2.1.image_stream ≠ NULL then
    ({ r2.1 with image_stream := NULL }, r2.2 ++ [Call.unref r2.1.image_stream])
  else r2

/-- Successive runs of `progressive_timeout`, one for each element of the list of outcomes:
the result of every run, in order. -/
def timeouts : Images → List Outcomes → List (Bool × Images × List Call)
  | _, [] => []
  | s, io :: ios =>
    let r := progressive_timeout s io
    r :: timeouts r.2.1 ios

/-- The static variables when `do_images` has started the loading: no stream, no loader, the
timeout installed with source id `id`. -/
def images_start (window : gpointer) (id : Nat) : Images :=
  start_progressive_loading
    { window := window, pixbuf_loader := NULL, load_timeout := 0, image_stream := NULL } id

/-- At a step boundary, an open stream comes with a loader. -/
def loader_ready (s : Images) : Prop := s.image_stream ≠ NULL → s.pixbuf_loader ≠ NULL

/-- Outcomes of a load that reads 200 bytes, 56 bytes, then the end of the stream. -/
def load_outcomes : List Outcomes :=
  [{ bytes_read := 0, write_ok := true, stream_close_ok := true, loader_close_ok := true,
     opened := 11, new_loader := 12 },
   { bytes_read := 200, write_ok := true, stream_close_ok := true, loader_close_ok := true,
     opened := 0, new_loader := 13 },
   { bytes_read := 56, write_ok := true, stream_close_ok := true, loader_close_ok := true,
     opened := 0, new_loader := 13 },
   { bytes_read := 0, write_ok := true, stream_close_ok := true, loader_close_ok := true,
     opened := 0, new_loader := 13 },
   { bytes_read := 0, write_ok := true, stream_close_ok := true, loader_close_ok := true,
     opened := 0, new_loader := 13 }]

/-! ## Lemmas: fields a call leaves unchanged -/

theorem release_gl_base (gl : GLServer) (t : GdkTexture) :
    (gdk_texture_release_gl gl t).1.width = t.width ∧
    (gdk_texture_release_gl gl t).1.height = t.height ∧
    (gdk_texture_release_gl gl t).1.render_key = t.render_key ∧
    (gdk_texture_release_gl gl t).1.render_data = t.render_data ∧
    (gdk_texture_release_gl gl t).1.render_notify = t.render_notify := by
  unfold gdk_texture_release_gl
  cases hi : t.inst with
  | cairo s => simp
  | pixbuf p => simp
  | gl self =>
    cases hs : self.saved with
    | none => simp [hs]
    | some s => simp [hs]

theorem step_size (gl : GLServer) (t : GdkTexture) (op : Op) :
    (step gl t op).tex.width = t.width ∧ (step gl t op).tex.height = t.height := by
  cases op with
  | download data stride => simp [step]
  | download_surface => simp [step]
  | set_render_data key data notify =>
    simp only [step, gdk_texture_set_render_data]
    split_ifs <;> simp
  | clear_render_data => simp [step, gdk_texture_clear_render_data]
  | get_render_data key => simp [step]
  | release_gl =>
    have h := release_gl_base gl t
    simp [step, h.1, h.2.1]
  | dispose =>
    simp only [step, dispose]
    cases hi : t.inst with
    | cairo s => simp [gdk_texture_dispose, gdk_texture_clear_render_data]
    | pixbuf p => simp [gdk_texture_dispose, gdk_texture_clear_render_data]
    | gl self => simp [gdk_gl_texture_dispose, gdk_texture_dispose, gdk_texture_clear_render_data]

theorem step_render_kept (gl : GLServer) (t : GdkTexture) (op : Op)
    (hocc : t.render_key ≠ NULL) (h1 : op ≠ Op.clear_render_data) (h2 : op ≠ Op.dispose) :
    (step gl t op).tex.render_key = t.render_key ∧
    (step gl t op).tex.render_data = t.render_data ∧
    (step gl t op).tex.render_notify = t.render_notify ∧
    ∀ k d n, op = Op.set_render_data k d n → (step gl t op).ret = Ret.bool false := by
  cases op with
  | download data stride => simp [step]
  | download_surface => simp [step]
  | set_render_data key data notify =>
    simp only [step, gdk_texture_set_render_data]
    split_ifs <;> simp
  | clear_render_data => exact absurd rfl h1
  | get_render_data key => simp [step]
  | release_gl =>
    have h := release_gl_base gl t
    simp [step, h.2.2.1, h.2.2.2.1, h.2.2.2.2]
  | dispose => exact absurd rfl h2

theorem run_render_kept (gl : GLServer) (ops : List Op) :
    ∀ t : GdkTexture, t.render_key ≠ NULL →
      (∀ op ∈ ops, op ≠ Op.clear_render_data ∧ op ≠ Op.dispose) →
      (∀ o ∈ (run gl t ops).2, o.tex.render_key = t.render_key ∧
        o.tex.render_data = t.render_data ∧ o.tex.render_notify = t.render_notify) ∧
      (∀ p ∈ List.zip ops (run gl t ops).2, ∀ k d n, p.1 = Op.set_render_data k d n →
        p.2.ret = Ret.bool false) := by
  induction ops with
  | nil => intro t _ _; simp [run]
  | cons op ops ih =>
    intro t hocc hops
    have hop := hops op (List.mem_cons_self _ _)
    have hs := step_render_kept gl t op hocc hop.1 hop.2
    have hocc2 : (step gl t op).tex.render_key ≠ NULL := by rw [hs.1]; exact hocc
    have ih2 := ih (step gl t op).tex hocc2 (fun o ho => hops o (List.mem_cons_of_mem _ ho))
    constructor
    · intro o ho
      simp only [run, List.mem_cons] at ho
      rcases ho with rfl | ho
      · exact ⟨hs.1, hs.2.1, hs.2.2.1⟩
      · have := ih2.1 o ho
        rw [hs.1, hs.2.1, hs.2.2.1] at this
        exact this
    · intro p hp k d n hk
      simp only [run, List.zip_cons_cons, List.mem_cons] at hp
      rcases hp with rfl | hp
      · exact hs.2.2.2 k d n hk
      · exact ih2.2 p hp k d n hk

theorem run_size (gl : GLServer) (ops : List Op) :
    ∀ t : GdkTexture, ∀ o ∈ (run gl t ops).2, o.tex.width = t.width ∧ o.tex.height = t.height := by
  induction ops with
  | nil => intro t o ho; simp [run] at ho
  | cons op ops ih =>
    intro t o ho
    have hs := step_size gl t op
    simp only [run, List.mem_cons] at ho
    rcases ho with rfl | ho
    · exact hs
    · have := ih (step gl t op).tex o ho
      rw [hs.1, hs.2] at this
      exact this

theorem keeps_size_of (gl : GLServer) (ops : List Op) (w h : Int) (t : GdkTexture)
    (hw : t.width = w) (hh : t.height = h) : keeps_size gl ops w h t := by
  refine ⟨hw, hh, ?_⟩
  intro o ho
  have := run_size gl ops t o ho
  simp only [gdk_texture_get_width, gdk_texture_get_height]
  rw [this.1, this.2]
  exact ⟨hw, hh⟩

theorem g_object_new_size (inst : Instance) (w h : Int) (hw : 0 < w) (hh : 0 < h)
    (hwmax : w ≤ G_MAXINT) (hhmax : h ≤ G_MAXINT) :
    (g_object_new inst w h).width = w ∧ (g_object_new inst w h).height = h := by
  have h1 : (1 : Int) ≤ w := by omega
  have h2 : (1 : Int) ≤ h := by omega
  simp [g_object_new, object_set_property, gdk_texture_set_property, h1, h2, hwmax, hhmax]

theorem new_for_gl_eq (context : gpointer) (id : Nat) (w h : Int) (destroy data : gpointer)
    (hc : context ≠ NULL) (hid : id ≠ 0) (hw : 0 < w) (hh : 0 < h)
    (hwmax : w ≤ G_MAXINT) (hhmax : h ≤ G_MAXINT) :
    gdk_texture_new_for_gl true context id w h destroy data =
      (some
        { width := w, height := h, render_key := NULL, render_data := NULL,
          render_notify := NULL,
          inst := Instance.gl
            { context := context, id := id, saved := none, destroy := destroy, data := data } },
        []) := by
  have h1 : (1 : Int) ≤ w := by omega
  have h2 : (1 : Int) ≤ h := by omega
  simp [gdk_texture_new_for_gl, hc, hid, hw, hh, g_object_new, object_set_property,
    gdk_texture_set_property, h1, h2, hwmax, hhmax]

/-! ## Lemmas: calls of the destroy callback -/

theorem run_append (gl : GLServer) (xs ys : List Op) :
    ∀ t : GdkTexture, run gl t (xs ++ ys) =
      ((run gl (run gl t xs).1 ys).1, (run gl t xs).2 ++ (run gl (run gl t xs).1 ys).2) := by
  induction xs with
  | nil => intro t; simp [run]
  | cons x xs ih => intro t; simp [run, ih]

theorem events_append (a b : List Outcome) : events (a ++ b) = events a ++ events b := by
  simp [events]

theorem events_cons (o : Outcome) (b : List Outcome) : events (o :: b) = o.log ++ events b := by
  simp [events]

theorem destroy_calls_append (a b : List Event) :
    destroy_calls (a ++ b) = destroy_calls a ++ destroy_calls b := by
  simp [destroy_calls]

theorem download_log_no_destroy (gl : GLServer) (t : GdkTexture) (data : Option Mem)
    (stride : Nat) : destroy_calls (gdk_texture_download gl t data stride).2 = [] := by
  unfold gdk_texture_download
  cases data with
  | none => simp [destroy_calls, Event.is_destroy]
  | some mem =>
    simp only
    split_ifs
    · cases hi : t.inst with
      | cairo s =>
        simp [call_download, GDK_TEXTURE_GET_CLASS, G_OBJECT_TYPE, g_type_class,
          gdk_cairo_texture_class_init, hi, gdk_cairo_texture_download, destroy_calls]
      | pixbuf p =>
        simp [call_download, GDK_TEXTURE_GET_CLASS, G_OBJECT_TYPE, g_type_class,
          gdk_pixbuf_texture_class_init, hi, gdk_pixbuf_texture_download, destroy_calls]
      | gl self =>
        cases hs : self.saved with
        | none =>
          simp [call_download, GDK_TEXTURE_GET_CLASS, G_OBJECT_TYPE, g_type_class,
            gdk_gl_texture_class_init, hi, gdk_gl_texture_download, hs, destroy_calls,
            Event.is_destroy]
        | some s =>
          simp [call_download, GDK_TEXTURE_GET_CLASS, G_OBJECT_TYPE, g_type_class,
            gdk_gl_texture_class_init, hi, gdk_gl_texture_download, hs, destroy_calls]
    · simp [destroy_calls, Event.is_destroy]

theorem step_first_release (gl : GLServer) (t : GdkTexture) (destroy data : gpointer) (op : Op)
    (hp : destroy_pending destroy data t) (hop : op.is_release_or_dispose = true) :
    destroy_calls (step gl t op).log =
      (if destroy = NULL then [] else [Event.destroy destroy data]) ∧
    destroy_gone (step gl t op).tex := by
  obtain ⟨self, hi, hs, hd, hdat⟩ := hp
  cases op with
  | release_gl =>
    by_cases h0 : destroy = NULL
    · simp [step, gdk_texture_release_gl, hi, hs, call_destroy, hd, h0, destroy_calls,
        Event.is_destroy, destroy_gone]
    · simp [step, gdk_texture_release_gl, hi, hs, call_destroy, hd, hdat, h0, destroy_calls,
        Event.is_destroy, destroy_gone]
  | dispose =>
    by_cases h0 : destroy = NULL
    · by_cases hn : t.render_notify = NULL <;>
      simp [step, dispose, gdk_gl_texture_dispose, hi, call_destroy, hd, h0, destroy_calls,
        Event.is_destroy, destroy_gone, gdk_texture_dispose, gdk_texture_clear_render_data, hn]
    · by_cases hn : t.render_notify = NULL <;>
      simp [step, dispose, gdk_gl_texture_dispose, hi, call_destroy, hd, hdat, h0, destroy_calls,
        Event.is_destroy, destroy_gone, gdk_texture_dispose, gdk_texture_clear_render_data, hn]
  | download d s => simp [Op.is_release_or_dispose] at hop
  | download_surface => simp [Op.is_release_or_dispose] at hop
  | set_render_data k d n => simp [Op.is_release_or_dispose] at hop
  | clear_render_data => simp [Op.is_release_or_dispose] at hop
  | get_render_data k => simp [Op.is_release_or_dispose] at hop

theorem step_after_release (gl : GLServer) (t : GdkTexture) (op : Op)
    (hg : destroy_gone t) (hop : op.is_gl_lifetime = true) :
    destroy_calls (step gl t op).log = [] ∧ destroy_gone (step gl t op).tex := by
  obtain ⟨self, hi, hd⟩ := hg
  cases op with
  | release_gl =>
    cases hs : self.saved with
    | none =>
      simp [step, gdk_texture_release_gl, hi, hs, call_destroy, hd, destroy_calls,
        Event.is_destroy, destroy_gone]
    | some s =>
      simp [step, gdk_texture_release_gl, hi, hs, destroy_calls, Event.is_destroy, destroy_gone,
        hd]
  | dispose =>
    by_cases hn : t.render_notify = NULL <;>
    simp [step, dispose, gdk_gl_texture_dispose, hi, call_destroy, hd, destroy_calls,
      Event.is_destroy, destroy_gone, gdk_texture_dispose, gdk_texture_clear_render_data, hn]
  | download d s =>
    refine ⟨?_, self, ?_, hd⟩
    · simpa [step] using download_log_no_destroy gl t d s
    · simpa [step] using hi
  | download_surface => simp [Op.is_gl_lifetime] at hop
  | set_render_data k d n => simp [Op.is_gl_lifetime] at hop
  | clear_render_data => simp [Op.is_gl_lifetime] at hop
  | get_render_data k => simp [Op.is_gl_lifetime] at hop

theorem run_after_release (gl : GLServer) (ops : List Op) :
    ∀ t : GdkTexture, destroy_gone t → (∀ op ∈ ops, op.is_gl_lifetime = true) →
      destroy_calls (events (run gl t ops).2) = [] := by
  induction ops with
  | nil => intro t _ _; simp [run, events, destroy_calls]
  | cons op ops ih =>
    intro t hg hops
    have hs := step_after_release gl t op hg (hops op (List.mem_cons_self _ _))
    have := ih (step gl t op).tex hs.2 (fun o ho => hops o (List.mem_cons_of_mem _ ho))
    simp [run, events_cons, destroy_calls_append, hs.1, this]

theorem run_downloads (gl : GLServer) (ops : List Op) :
    ∀ t : GdkTexture, (∀ op ∈ ops, op.is_download = true) →
      (run gl t ops).1 = t ∧ destroy_calls (events (run gl t ops).2) = [] := by
  induction ops with
  | nil => intro t _; simp [run, events, destroy_calls]
  | cons op ops ih =>
    intro t hops
    have hop := hops op (List.mem_cons_self _ _)
    cases op with
    | download d s =>
      have := ih t (fun o ho => hops o (List.mem_cons_of_mem _ ho))
      have hl := download_log_no_destroy gl t d s
      simp [run, step, events_cons, destroy_calls_append, this, hl]
    | download_surface => simp [Op.is_download] at hop
    | set_render_data k d n => simp [Op.is_download] at hop
    | clear_render_data => simp [Op.is_download] at hop
    | get_render_data k => simp [Op.is_download] at hop
    | release_gl => simp [Op.is_download] at hop
    | dispose => simp [Op.is_download] at hop

theorem new_for_gl_pending (is_gl_context : Bool) (context : gpointer) (id : Nat)
    (width height : Int) (destroy data : gpointer) (t : GdkTexture)
    (hnew : (gdk_texture_new_for_gl is_gl_context context id width height destroy data).1 = some t) :
    destroy_pending destroy data t := by
  unfold gdk_texture_new_for_gl at hnew
  split_ifs at hnew
  simp only [Option.some.injEq] at hnew
  subst hnew
  exact ⟨_, rfl, rfl, rfl, rfl⟩

theorem first_release_split (ops : List Op) :
    (∀ o ∈ ops, o.is_gl_lifetime = true) → (∃ o ∈ ops, o.is_release_or_dispose = true) →
    ∃ pre op post, ops = pre ++ op :: post ∧ (∀ o ∈ pre, o.is_download = true) ∧
      op.is_release_or_dispose = true ∧ (∀ o ∈ post, o.is_gl_lifetime = true) := by
  induction ops with
  | nil => intro _ h; obtain ⟨o, ho, _⟩ := h; simp at ho
  | cons a ops ih =>
    intro hall hex
    by_cases ha : a.is_release_or_dispose = true
    · exact ⟨[], a, ops, rfl, by simp, ha, fun o ho => hall o (List.mem_cons_of_mem _ ho)⟩
    · have hdl : a.is_download = true := by
        have := hall a (List.mem_cons_self _ _)
        cases a <;> simp_all [Op.is_gl_lifetime, Op.is_release_or_dispose, Op.is_download]
      have hex2 : ∃ o ∈ ops, o.is_release_or_dispose = true := by
        obtain ⟨o, ho, hr⟩ := hex
        rcases List.mem_cons.mp ho with rfl | ho
        · exact absurd hr ha
        · exact ⟨o, ho, hr⟩
      obtain ⟨pre, op, post, he, hpre, hop, hpost⟩ :=
        ih (fun o ho => hall o (List.mem_cons_of_mem _ ho)) hex2
      refine ⟨a :: pre, op, post, by simp [he], ?_, hop, hpost⟩
      intro o ho
      rcases List.mem_cons.mp ho with rfl | ho
      · exact hdl
      · exact hpre o ho

/-! ## Lemmas: what `cairo_paint` writes -/

theorem paint_row_frame (op : cairo_operator_t) (src : Nat → Nat → Nat → Nat) (stride : Int)
    (y : Nat) (mem : Mem) (off : Int) :
    ∀ n : Nat, ¬ ((y : Int) * stride ≤ off ∧ off < (y : Int) * stride + 4 * (n : Int)) →
      paint_row op src stride y n mem off = mem off := by
  intro n
  induction n with
  | zero => intro _; rfl
  | succ n ih =>
    intro h
    have hmiss : ¬ ((y : Int) * stride + 4 * (n : Int) ≤ off ∧
        off < (y : Int) * stride + 4 * (n : Int) + 4) := by
      push_cast at h
      omega
    have hrec : ¬ ((y : Int) * stride ≤ off ∧ off < (y : Int) * stride + 4 * (n : Int)) := by
      push_cast at h
      omega
    simp only [paint_row, paint_pixel, if_neg hmiss]
    exact ih hrec

theorem paint_row_hit (op : cairo_operator_t) (src : Nat → Nat → Nat → Nat) (stride : Int)
    (y : Nat) (mem : Mem) (x c : Nat) (hc : c < 4) :
    ∀ n : Nat, x < n →
      paint_row op src stride y n mem ((y : Int) * stride + 4 * (x : Int) + (c : Int)) =
        composite op (fun k => src x y k)
          (fun k => mem ((y : Int) * stride + 4 * (x : Int) + (k : Int))) c := by
  intro n
  induction n with
  | zero => intro h; omega
  | succ n ih =>
    intro hx
    by_cases hxn : x = n
    · subst hxn
      have hhit : (y : Int) * stride + 4 * (x : Int) ≤ (y : Int) * stride + 4 * (x : Int) + (c : Int)
          ∧ (y : Int) * stride + 4 * (x : Int) + (c : Int) <
            (y : Int) * stride + 4 * (x : Int) + 4 := by
        omega
      have hidx : ((y : Int) * stride + 4 * (x : Int) + (c : Int) -
          ((y : Int) * stride + 4 * (x : Int))).toNat = c := by
        have : (y : Int) * stride + 4 * (x : Int) + (c : Int) -
          ((y : Int) * stride + 4 * (x : Int)) = (c : Int) := by ring
        rw [this]; simp
      simp only [paint_row, paint_pixel, if_pos hhit, hidx]
      cases op with
      | SOURCE => rfl
      | OVER =>
        simp only [composite]
        have hfr := paint_row_frame cairo_operator_t.OVER src stride y mem
          ((y : Int) * stride + 4 * (x : Int) + (c : Int)) x (by omega)
        rw [hfr]
    · have hlt : x < n := by omega
      have hmiss : ¬ ((y : Int) * stride + 4 * (n : Int) ≤
          (y : Int) * stride + 4 * (x : Int) + (c : Int) ∧
          (y : Int) * stride + 4 * (x : Int) + (c : Int) <
            (y : Int) * stride + 4 * (n : Int) + 4) := by
        omega
      simp only [paint_row, paint_pixel, if_neg hmiss]
      exact ih hlt

theorem paint_rows_frame (op : cairo_operator_t) (src : Nat → Nat → Nat → Nat) (stride : Int)
    (w : Nat) (mem : Mem) (off : Int) :
    ∀ n : Nat,
      (∀ y : Nat, y < n → ¬ ((y : Int) * stride ≤ off ∧ off < (y : Int) * stride + 4 * (w : Int))) →
      paint_rows op src stride w n mem off = mem off := by
  intro n
  induction n with
  | zero => intro _; rfl
  | succ n ih =>
    intro h
    simp only [paint_rows]
    rw [paint_row_frame op src stride n _ off w (h n (Nat.lt_succ_self n))]
    exact ih (fun y hy => h y (Nat.lt_succ_of_lt hy))

theorem row_below (stride : Int) (hs : 0 ≤ stride) (y n : Nat) (hy : y < n) :
    ((y : Int) + 1) * stride ≤ (n : Int) * stride := by
  have : ((y : Int) + 1) ≤ (n : Int) := by omega
  exact Int.mul_le_mul_of_nonneg_right this hs

theorem paint_rows_hit (op : cairo_operator_t) (src : Nat → Nat → Nat → Nat) (stride : Int)
    (w : Nat) (mem : Mem) (hs : 4 * (w : Int) ≤ stride) (y x c : Nat) (hx : x < w) (hc : c < 4) :
    ∀ n : Nat, y < n →
      paint_rows op src stride w n mem ((y : Int) * stride + 4 * (x : Int) + (c : Int)) =
        composite op (fun k => src x y k)
          (fun k => mem ((y : Int) * stride + 4 * (x : Int) + (k : Int))) c := by
  have hs0 : 0 ≤ stride := by omega
  intro n
  induction n with
  | zero => intro h; omega
  | succ n ih =>
    intro hy
    by_cases hyn : y = n
    · subst hyn
      simp only [paint_rows]
      rw [paint_row_hit op src stride y _ x c hc w hx]
      cases op with
      | SOURCE => rfl
      | OVER =>
        simp only [composite]
        rw [paint_rows_frame cairo_operator_t.OVER src stride w mem _ y]
        intro y2 hy2
        have := row_below stride hs0 y2 y hy2
        have e : ((y2 : Int) + 1) * stride = (y2 : Int) * stride + stride := by ring
        omega
    · have hlt : y < n := by omega
      simp only [paint_rows]
      have := row_below stride hs0 y n hlt
      have e : ((y : Int) + 1) * stride = (y : Int) * stride + stride := by ring
      rw [paint_row_frame op src stride n _ _ w (by omega)]
      exact ih hlt

theorem wrap_int_id (x : Int) (h0 : 0 ≤ x) (h1 : x ≤ G_MAXINT) : wrap_int x = x := by
  unfold wrap_int
  unfold G_MAXINT at h1
  norm_num at h1 ⊢
  omega

theorem to_gsize_id (x : Int) (h0 : 0 ≤ x) (h1 : x ≤ G_MAXINT) : (to_gsize x : Int) = x := by
  unfold to_gsize
  unfold G_MAXINT at h1
  norm_num at h1 ⊢
  have : x % 18446744073709551616 = x := by omega
  rw [this]
  omega

theorem MUL_UN8_zero (b : Nat) : MUL_UN8 0 b = 0 := by
  simp [MUL_UN8]

theorem composite_over_clear (s : Nat → Nat) (c : Nat) (h : s c ≤ 255) :
    composite cairo_operator_t.OVER s (fun _ => 0) c = s c := by
  simp [composite, MUL_UN8_zero, h]

theorem byte_split (b : Nat) : (b : Int) = 4 * ((b / 4 : Nat) : Int) + ((b % 4 : Nat) : Int) := by
  have := Nat.div_add_mod b 4
  omega

theorem image_size_fits_int (w : Int) (h : w ≤ MAX_IMAGE_SIZE) : w ≤ G_MAXINT := by
  unfold MAX_IMAGE_SIZE at h
  unfold G_MAXINT
  norm_num
  omega

theorem create_ok (w h : Int) (hw0 : 0 ≤ w) (hw : w ≤ MAX_IMAGE_SIZE) (hh0 : 0 ≤ h)
    (hh : h ≤ MAX_IMAGE_SIZE) :
    cairo_image_surface_create w h =
      { status := cairo_status_t.SUCCESS, type := cairo_surface_type_t.IMAGE, width := w,
        height := h, stride := 4 * w, data := fun _ => 0 } := by
  simp [cairo_image_surface_create, hw0, hw, hh0, hh]

theorem create_in_error (w h : Int)
    (hbad : ¬ (0 ≤ w ∧ w ≤ MAX_IMAGE_SIZE ∧ 0 ≤ h ∧ h ≤ MAX_IMAGE_SIZE)) :
    cairo_image_surface_create w h = cairo_surface_in_error := by
  unfold cairo_image_surface_create
  rw [if_neg hbad]

theorem create_for_data_ok (data : Mem) (w h stride : Int) (hs4 : stride % 4 = 0)
    (hw0 : 0 ≤ w) (hw : w ≤ MAX_IMAGE_SIZE) (hh0 : 0 ≤ h) (hh : h ≤ MAX_IMAGE_SIZE)
    (hs : 4 * w ≤ stride) :
    cairo_image_surface_create_for_data data w h stride =
      { status := cairo_status_t.SUCCESS, type := cairo_surface_type_t.IMAGE, width := w,
        height := h, stride := stride, data := data } := by
  have h1 : ¬ (stride < 0 ∧ stride > -(4 * w)) := by omega
  have h2 : ¬ (0 ≤ stride ∧ stride < 4 * w) := by omega
  unfold cairo_image_surface_create_for_data
  rw [if_neg (not_not.mpr hs4), if_neg (not_not.mpr ⟨hw0, hw, hh0, hh⟩), if_neg h1, if_neg h2]

theorem create_for_data_cases (data : Mem) (w h stride : Int) :
    cairo_image_surface_create_for_data data w h stride = cairo_surface_in_error ∨
    cairo_image_surface_create_for_data data w h stride =
      { status := cairo_status_t.SUCCESS, type := cairo_surface_type_t.IMAGE, width := w,
        height := h, stride := stride, data := data } := by
  unfold cairo_image_surface_create_for_data
  split_ifs <;> first | exact Or.inl rfl | exact Or.inr rfl

/-- The texture `gdk_texture_new_for_data` returns for a size cairo accepts: a cairo texture
of that size. -/
theorem new_for_data_size (data : Mem) (width height stride : Int)
    (hw : 0 < width) (hh : 0 < height) (hwmax : width ≤ MAX_IMAGE_SIZE)
    (hhmax : height ≤ MAX_IMAGE_SIZE) :
    ∃ surface : cairo_surface_t,
      gdk_texture_new_for_data data width height stride =
        (some
          { width := width, height := height, render_key := NULL, render_data := NULL,
            render_notify := NULL, inst := Instance.cairo surface }, []) := by
  have h1 : (1 : Int) ≤ width := by omega
  have h2 : (1 : Int) ≤ height := by omega
  have hg1 := image_size_fits_int width hwmax
  have hg2 := image_size_fits_int height hhmax
  have hc := create_ok width height (by omega) hwmax (by omega) hhmax
  rcases create_for_data_cases data width height stride with he | he
  · have hval : gdk_texture_new_for_data data width height stride =
        (some
          { width := width, height := height, render_key := NULL, render_data := NULL,
            render_notify := NULL,
            inst := Instance.cairo
              { status := cairo_status_t.SUCCESS, type := cairo_surface_type_t.IMAGE,
                width := width, height := height, stride := 4 * width,
                data := fun _ => 0 } }, []) := by
      simp [gdk_texture_new_for_data, gdk_texture_new_for_surface, hw, hh, cairo_paint,
        cairo_set_source_surface, cairo_create, hc, he, cairo_surface_in_error,
        cairo_image_surface_get_width, cairo_image_surface_get_height, cairo_surface_is_image,
        g_object_new, object_set_property, gdk_texture_set_property, h1, h2, hg1, hg2]
    exact ⟨_, hval⟩
  · have hval : gdk_texture_new_for_data data width height stride =
        (some
          { width := width, height := height, render_key := NULL, render_data := NULL,
            render_notify := NULL,
            inst := Instance.cairo
              { status := cairo_status_t.SUCCESS, type := cairo_surface_type_t.IMAGE,
                width := width, height := height, stride := 4 * width,
                data := paint_rows cairo_operator_t.OVER
                  (source_byte (some
                    { status := cairo_status_t.SUCCESS, type := cairo_surface_type_t.IMAGE,
                      width := width, height := height, stride := stride, data := data }))
                  (4 * width) width.toNat height.toNat (fun _ => 0) } }, []) := by
      simp [gdk_texture_new_for_data, gdk_texture_new_for_surface, hw, hh, cairo_paint,
        cairo_set_source_surface, cairo_create, hc, he,
        cairo_image_surface_get_width, cairo_image_surface_get_height, cairo_surface_is_image,
        g_object_new, object_set_property, gdk_texture_set_property, h1, h2, hg1, hg2]
    exact ⟨_, hval⟩

/-- The function `gdk_texture_new_for_data` returns `NULL` for a size above the limit of a
cairo image surface: the copy is an error surface, of width 0. -/
theorem new_for_data_too_large (data : Mem) (width height stride : Int)
    (hbad : ¬ (width ≤ MAX_IMAGE_SIZE ∧ height ≤ MAX_IMAGE_SIZE)) :
    (gdk_texture_new_for_data data width height stride).1 = none := by
  unfold gdk_texture_new_for_data
  by_cases hw : width > 0
  · by_cases hh : height > 0
    · have hc : cairo_image_surface_create width height = cairo_surface_in_error := by
        apply create_in_error
        intro h
        exact hbad ⟨h.2.1, h.2.2.2⟩
      simp [hw, hh, hc, cairo_create, cairo_set_source_surface, cairo_paint,
        cairo_surface_in_error, gdk_texture_new_for_surface, cairo_image_surface_get_width,
        cairo_surface_is_image]
    · simp [hw, hh]
  · simp [hw]

/-- The copy `gdk_texture_new_for_data` paints from the caller's data, for a size and a stride
cairo accepts. -/
theorem new_for_data_eq (data : Mem) (width height stride : Int)
    (hw : 0 < width) (hh : 0 < height) (hwmax : width ≤ MAX_IMAGE_SIZE)
    (hhmax : height ≤ MAX_IMAGE_SIZE) (hs4 : stride % 4 = 0) (hs : 4 * width ≤ stride) :
    gdk_texture_new_for_data data width height stride =
      (some
        { width := width, height := height, render_key := NULL, render_data := NULL,
          render_notify := NULL,
          inst := Instance.cairo
            { status := cairo_status_t.SUCCESS, type := cairo_surface_type_t.IMAGE,
              width := width, height := height, stride := 4 * width,
              data := paint_rows cairo_operator_t.OVER
                (source_byte (some
                  { status := cairo_status_t.SUCCESS, type := cairo_surface_type_t.IMAGE,
                    width := width, height := height, stride := stride, data := data }))
                (4 * width) width.toNat height.toNat (fun _ => 0) } }, []) := by
  have h1 : (1 : Int) ≤ width := by omega
  have h2 : (1 : Int) ≤ height := by omega
  have hg1 := image_size_fits_int width hwmax
  have hg2 := image_size_fits_int height hhmax
  have hc := create_ok width height (by omega) hwmax (by omega) hhmax
  have he := create_for_data_ok data width height stride hs4 (by omega) hwmax (by omega) hhmax hs
  simp [gdk_texture_new_for_data, gdk_texture_new_for_surface, hw, hh, cairo_paint,
    cairo_set_source_surface, cairo_create, hc, he,
    cairo_image_surface_get_width, cairo_image_surface_get_height, cairo_surface_is_image,
    g_object_new, object_set_property, gdk_texture_set_property, h1, h2, hg1, hg2]

/-- What `gdk_cairo_texture_download` writes when the stride is a multiple of 4, at least the
row size and fits a C `int`, and the surface of the texture has the size of the texture. -/
theorem cairo_download_rows (texture : GdkTexture) (surface : cairo_surface_t) (out : Mem)
    (W H : Nat) (d : Nat)
    (htw : texture.width = W) (hth : texture.height = H)
    (hst : surface.status = cairo_status_t.SUCCESS)
    (hsw : surface.width = W) (hsh : surface.height = H)
    (hwmax : (W : Int) ≤ MAX_IMAGE_SIZE) (hhmax : (H : Int) ≤ MAX_IMAGE_SIZE)
    (hd4 : (d : Int) % 4 = 0)
    (hd : 4 * (W : Int) ≤ (d : Int)) (hdmax : (d : Int) ≤ G_MAXINT) :
    (∀ y b : Nat, y < H → b < 4 * W →
      (gdk_cairo_texture_download texture surface out d).1 ((y : Int) * d + b) =
        surface.data ((y : Int) * surface.stride + b)) ∧
    (∀ y b : Nat, y < H → 4 * W ≤ b → b < d →
      (gdk_cairo_texture_download texture surface out d).1 ((y : Int) * d + b) =
        out ((y : Int) * d + b)) := by
  have hwrap : wrap_int (d : Int) = d := wrap_int_id d (by omega) hdmax
  have he := create_for_data_ok out W H d hd4 (by omega) hwmax (by omega) hhmax hd
  have hval : (gdk_cairo_texture_download texture surface out d).1 =
      paint_rows cairo_operator_t.SOURCE (source_byte (some surface)) (d : Int) W H out := by
    simp [gdk_cairo_texture_download, cairo_paint, cairo_set_operator, cairo_set_source_surface,
      cairo_create, cairo_surface_finish, hwrap, htw, hth, he, hst]
  rw [hval]
  constructor
  · intro y b hy hb
    have hx : b / 4 < W := by omega
    have hc : b % 4 < 4 := Nat.mod_lt _ (by decide)
    have hsplit := byte_split b
    have e1 : (y : Int) * d + b = (y : Int) * d + 4 * ((b / 4 : Nat) : Int) + ((b % 4 : Nat) : Int) := by
      omega
    rw [e1, paint_rows_hit cairo_operator_t.SOURCE _ (d : Int) W out hd y (b / 4) (b % 4) hx hc H hy]
    have hin : ((b / 4 : Nat) : Int) < surface.width ∧ (y : Int) < surface.height := by
      rw [hsw, hsh]; omega
    simp only [composite, source_byte, if_pos hin]
    have e2 : (y : Int) * surface.stride + 4 * ((b / 4 : Nat) : Int) + ((b % 4 : Nat) : Int) =
        (y : Int) * surface.stride + b := by omega
    rw [e2]
  · intro y b hy hb hbd
    apply paint_rows_frame
    intro y2 hy2
    have hd0 : (0 : Int) ≤ d := by omega
    rcases Nat.lt_trichotomy y2 y with hlt | heq | hgt
    · have := row_below d hd0 y2 y hlt
      have e : ((y2 : Int) + 1) * d = (y2 : Int) * d + d := by ring
      omega
    · subst heq
      omega
    · have := row_below d hd0 y y2 hgt
      have e : ((y : Int) + 1) * d = (y : Int) * d + d := by ring
      omega

/-- Painting a `W x H` source over a cleared, tightly packed `W x H` surface copies the rows of
the source. -/
theorem copy_rows (src : cairo_surface_t) (W H : Nat) (hsw : src.width = W)
    (hsh : src.height = H) (hdata : ∀ off, src.data off ≤ 255)
    (y b : Nat) (hy : y < H) (hb : b < 4 * W) :
    paint_rows cairo_operator_t.OVER (source_byte (some src))
      (4 * (W : Int)) W H (fun _ => 0) ((y : Int) * (4 * (W : Int)) + b) =
      src.data ((y : Int) * src.stride + b) := by
  have hx : b / 4 < W := by omega
  have hc : b % 4 < 4 := Nat.mod_lt _ (by decide)
  have hsplit := byte_split b
  have e1 : (y : Int) * (4 * (W : Int)) + b =
      (y : Int) * (4 * (W : Int)) + 4 * ((b / 4 : Nat) : Int) + ((b % 4 : Nat) : Int) := by
    omega
  rw [e1, paint_rows_hit cairo_operator_t.OVER _ (4 * (W : Int)) W _ (le_refl _) y (b / 4) (b % 4)
    hx hc H hy]
  have hin : ((b / 4 : Nat) : Int) < src.width ∧ (y : Int) < src.height := by
    rw [hsw, hsh]; omega
  have e2 : (y : Int) * src.stride + 4 * ((b / 4 : Nat) : Int) + ((b % 4 : Nat) : Int) =
      (y : Int) * src.stride + b := by omega
  have hbyte : source_byte (some src) (b / 4) y (b % 4) = src.data ((y : Int) * src.stride + b) := by
    simp only [source_byte, if_pos hin, e2]
  rw [composite_over_clear _ _ (by rw [hbyte]; exact hdata _), hbyte]

/-- The surface `gdk_cairo_draw_from_gl` draws for `gdk_texture_release_gl` when cairo accepts
the size: a new `w x h` surface on which the pixels read back are painted. -/
theorem draw_from_gl_ok (gl : GLServer) (window : gpointer) (id : Nat) (w h : Int)
    (hw0 : 0 ≤ w) (hw : w ≤ MAX_IMAGE_SIZE) (hh0 : 0 ≤ h) (hh : h ≤ MAX_IMAGE_SIZE) :
    (gdk_cairo_draw_from_gl gl (cairo_create (cairo_image_surface_create w h)) window id w
        h).target =
      { status := cairo_status_t.SUCCESS, type := cairo_surface_type_t.IMAGE, width := w,
        height := h, stride := 4 * w,
        data := paint_rows cairo_operator_t.OVER
          (source_byte (some
            { status := cairo_status_t.SUCCESS, type := cairo_surface_type_t.IMAGE,
              width := w, height := h, stride := 4 * w,
              data := gl.read_pixels window id w h }))
          (4 * w) w.toNat h.toNat (fun _ => 0) } := by
  have hc := create_ok w h hw0 hw hh0 hh
  have he := create_for_data_ok (gl.read_pixels window id w h) w h (4 * w) (by omega) hw0 hw hh0
    hh (le_refl _)
  simp [gdk_cairo_draw_from_gl, cairo_paint, cairo_set_source_surface, cairo_create, hc, he]

/-- The surface `gdk_cairo_draw_from_gl` leaves for `gdk_texture_release_gl` when cairo does
not accept the size: the error surface. -/
theorem draw_from_gl_in_error (gl : GLServer) (window : gpointer) (id : Nat) (w h : Int)
    (hbad : ¬ (0 ≤ w ∧ w ≤ MAX_IMAGE_SIZE ∧ 0 ≤ h ∧ h ≤ MAX_IMAGE_SIZE)) :
    (gdk_cairo_draw_from_gl gl (cairo_create (cairo_image_surface_create w h)) window id w
        h).target = cairo_surface_in_error := by
  have hc := create_in_error w h hbad
  simp [gdk_cairo_draw_from_gl, cairo_paint, cairo_set_source_surface, cairo_create, hc,
    cairo_surface_in_error]

theorem download_guard (w : Int) (d : Nat) (h0 : 0 ≤ w) (hd : 4 * w ≤ (d : Int))
    (hdmax : (d : Int) ≤ G_MAXINT) : d ≥ to_gsize (wrap_int (w * 4)) := by
  have h1 : w * 4 ≤ G_MAXINT := by omega
  rw [wrap_int_id (w * 4) (by omega) h1]
  have := to_gsize_id (w * 4) (by omega) h1
  omega

theorem download_cairo_eq (gl : GLServer) (t : GdkTexture) (surface : cairo_surface_t)
    (out : Mem) (W : Nat) (d : Nat) (hi : t.inst = Instance.cairo surface) (htw : t.width = W)
    (hd : 4 * (W : Int) ≤ (d : Int)) (hdmax : (d : Int) ≤ G_MAXINT) :
    gdk_texture_download gl t (some out) d =
      (some (gdk_cairo_texture_download t surface out d).1, []) := by
  have hg := download_guard (W : Int) d (by omega) hd hdmax
  simp only [gdk_texture_download, gdk_texture_get_width, ge_iff_le, htw] at hg ⊢
  rw [if_pos hg]
  simp [call_download, GDK_TEXTURE_GET_CLASS, G_OBJECT_TYPE, g_type_class,
    gdk_cairo_texture_class_init, hi, gdk_cairo_texture_download]

theorem red_pixels_bytes : ∀ off, red_pixels off ≤ 255 := by
  intro off
  unfold red_pixels
  split_ifs <;> omega

/-! ## The render-data slot is set at most once (C1) -/

/-- C1 (counterexample): on a texture with an empty slot, `gdk_texture_set_render_data (NULL,
5, 7)` returns `TRUE`, and the next call `gdk_texture_set_render_data (9, 6, 8)`, with no clear
in between, returns `TRUE` again and replaces the entry. -/
theorem set_render_data_null_key_overwritten :
    (gdk_texture_set_render_data tex_1x1 NULL 5 7).1 = true ∧
    (gdk_texture_set_render_data (gdk_texture_set_render_data tex_1x1 NULL 5 7).2.1 9 6 8).1
      = true ∧
    (gdk_texture_set_render_data tex_1x1 NULL 5 7).2.1.render_data = 5 ∧
    (gdk_texture_set_render_data (gdk_texture_set_render_data tex_1x1 NULL 5 7).2.1 9 6
      8).2.1.render_data = 6 := by
  decide

/-- C1 (amended): after `gdk_texture_set_render_data (key1, data1, notify1)` has returned
`TRUE` with a key that is not `NULL`, the slot holds exactly `(key1, data1, notify1)`, and in
every sequence of further calls that contains neither `gdk_texture_clear_render_data` nor
`dispose`, each `gdk_texture_set_render_data` call returns `FALSE` and after each call the
three fields are still `key1`, `data1` and `notify1`. -/
theorem set_render_data_at_most_once (gl : GLServer) (t : GdkTexture)
    (key1 data1 notify1 : gpointer) (ops : List Op)
    (hkey : key1 ≠ NULL)
    (hset : (gdk_texture_set_render_data t key1 data1 notify1).1 = true)
    (hops : ∀ op ∈ ops, op ≠ Op.clear_render_data ∧ op ≠ Op.dispose) :
    (gdk_texture_set_render_data t key1 data1 notify1).2.1.render_key = key1 ∧
    (gdk_texture_set_render_data t key1 data1 notify1).2.1.render_data = data1 ∧
    (gdk_texture_set_render_data t key1 data1 notify1).2.1.render_notify = notify1 ∧
    (∀ o ∈ (run gl (gdk_texture_set_render_data t key1 data1 notify1).2.1 ops).2,
      o.tex.render_key = key1 ∧ o.tex.render_data = data1 ∧ o.tex.render_notify = notify1) ∧
    (∀ p ∈ List.zip ops (run gl (gdk_texture_set_render_data t key1 data1 notify1).2.1 ops).2,
      ∀ k d n, p.1 = Op.set_render_data k d n → p.2.ret = Ret.bool false) := by
  have hfields : (gdk_texture_set_render_data t key1 data1 notify1).2.1.render_key = key1 ∧
      (gdk_texture_set_render_data t key1 data1 notify1).2.1.render_data = data1 ∧
      (gdk_texture_set_render_data t key1 data1 notify1).2.1.render_notify = notify1 := by
    unfold gdk_texture_set_render_data at hset ⊢
    split_ifs at hset ⊢
    simp
  have hocc : (gdk_texture_set_render_data t key1 data1 notify1).2.1.render_key ≠ NULL := by
    rw [hfields.1]; exact hkey
  have h := run_render_kept gl ops _ hocc hops
  refine ⟨hfields.1, hfields.2.1, hfields.2.2, ?_, h.2⟩
  intro o ho
  have := h.1 o ho
  rw [hfields.1, hfields.2.1, hfields.2.2] at this
  exact this

/-- C1 (witness): the amended statement at a 1x1 texture, the entry `(9, 5, 7)` and a sequence
of further calls. -/
theorem set_render_data_at_most_once_witness :
    ((9 : gpointer) ≠ NULL ∧ (gdk_texture_set_render_data tex_1x1 9 5 7).1 = true ∧
      (∀ op ∈ sample_ops, op ≠ Op.clear_render_data ∧ op ≠ Op.dispose)) ∧
    ((gdk_texture_set_render_data tex_1x1 9 5 7).2.1.render_key = 9 ∧
      (gdk_texture_set_render_data tex_1x1 9 5 7).2.1.render_data = 5 ∧
      (gdk_texture_set_render_data tex_1x1 9 5 7).2.1.render_notify = 7 ∧
      (∀ o ∈ (run gl_clear (gdk_texture_set_render_data tex_1x1 9 5 7).2.1 sample_ops).2,
        o.tex.render_key = 9 ∧ o.tex.render_data = 5 ∧ o.tex.render_notify = 7) ∧
      (∀ p ∈ List.zip sample_ops
          (run gl_clear (gdk_texture_set_render_data tex_1x1 9 5 7).2.1 sample_ops).2,
        ∀ k d n, p.1 = Op.set_render_data k d n → p.2.ret = Ret.bool false)) := by
  have h1 : (9 : gpointer) ≠ NULL := by decide
  have h2 : (gdk_texture_set_render_data tex_1x1 9 5 7).1 = true := by decide
  have h3 : ∀ op ∈ sample_ops, op ≠ Op.clear_render_data ∧ op ≠ Op.dispose := by
    intro op hop
    simp only [sample_ops, List.mem_cons, List.mem_singleton, List.not_mem_nil, or_false] at hop
    rcases hop with rfl | rfl | rfl | rfl | rfl | rfl | rfl | rfl <;> simp
  exact ⟨⟨h1, h2, h3⟩, set_render_data_at_most_once gl_clear tex_1x1 9 5 7 sample_ops h1 h2 h3⟩

/-! ## The destroy callback of a GL texture (C2) -/

/-- C2: for the GL texture returned by `gdk_texture_new_for_gl (context, id, width, height,
destroy, data)` and every sequence of `gdk_texture_release_gl`, `gdk_texture_download` and
`dispose` calls that contains a release or a dispose, the calls of the destroy callback in the
whole sequence are exactly one call `destroy (data)` (none when `destroy` is `NULL`, that is
when no callback was passed), and that call is made by the first release or dispose of the
sequence: the sequence splits into downloads, which call nothing, that first release or
dispose, which makes the call, and the rest. -/
theorem gl_destroy_called_once (gl : GLServer) (is_gl_context : Bool) (context : gpointer)
    (id : Nat) (width height : Int) (destroy data : gpointer) (t : GdkTexture) (ops : List Op)
    (hnew : (gdk_texture_new_for_gl is_gl_context context id width height destroy data).1
      = some t)
    (hops : ∀ o ∈ ops, o.is_gl_lifetime = true)
    (hrel : ∃ o ∈ ops, o.is_release_or_dispose = true) :
    destroy_calls (events (run gl t ops).2) =
      (if destroy = NULL then [] else [Event.destroy destroy data]) ∧
    ∃ pre op post, ops = pre ++ op :: post ∧ (∀ o ∈ pre, o.is_download = true) ∧
      op.is_release_or_dispose = true ∧
      destroy_calls (events (run gl t pre).2) = [] ∧
      destroy_calls (step gl (run gl t pre).1 op).log =
        (if destroy = NULL then [] else [Event.destroy destroy data]) := by
  obtain ⟨pre, op, post, he, hpre, hop, hpost⟩ := first_release_split ops hops hrel
  have hpend := new_for_gl_pending is_gl_context context id width height destroy data t hnew
  have hd := run_downloads gl pre t hpre
  have hfirst := step_first_release gl t destroy data op hpend hop
  have hrest := run_after_release gl post (step gl t op).tex hfirst.2 hpost
  refine ⟨?_, pre, op, post, he, hpre, hop, hd.2, ?_⟩
  · subst he
    rw [run_append]
    simp only [run, events_append, events_cons, destroy_calls_append, hd.1, hd.2, hfirst.1,
      hrest, List.nil_append, List.append_nil]
  · rw [hd.1]
    exact hfirst.1

/-- C2 (witness): the scenario of a 4x4 GL texture with id 7 and a destroy callback, over a
sequence of downloads, two releases and a dispose. -/
theorem gl_destroy_called_once_witness :
    ((gdk_texture_new_for_gl true 1 7 4 4 3 5).1 = some gl_4x4 ∧
      (∀ o ∈ lifetime_ops, o.is_gl_lifetime = true) ∧
      (∃ o ∈ lifetime_ops, o.is_release_or_dispose = true)) ∧
    (destroy_calls (events (run gl_clear gl_4x4 lifetime_ops).2) =
        (if (3 : gpointer) = NULL then [] else [Event.destroy 3 5]) ∧
      ∃ pre op post, lifetime_ops = pre ++ op :: post ∧ (∀ o ∈ pre, o.is_download = true) ∧
        op.is_release_or_dispose = true ∧
        destroy_calls (events (run gl_clear gl_4x4 pre).2) = [] ∧
        destroy_calls (step gl_clear (run gl_clear gl_4x4 pre).1 op).log =
          (if (3 : gpointer) = NULL then [] else [Event.destroy 3 5])) := by
  have h1 : (gdk_texture_new_for_gl true 1 7 4 4 3 5).1 = some gl_4x4 := by
    rw [new_for_gl_eq 1 7 4 4 3 5 (by decide) (by decide) (by decide) (by decide) (by decide)
      (by decide)]
    rfl
  have h2 : ∀ o ∈ lifetime_ops, o.is_gl_lifetime = true := by
    intro o ho
    simp only [lifetime_ops, List.mem_cons, List.mem_singleton, List.not_mem_nil, or_false] at ho
    rcases ho with rfl | rfl | rfl | rfl | rfl <;> rfl
  have h3 : ∃ o ∈ lifetime_ops, o.is_release_or_dispose = true :=
    ⟨Op.release_gl, by simp [lifetime_ops], rfl⟩
  exact ⟨⟨h1, h2, h3⟩, gl_destroy_called_once gl_clear true 1 7 4 4 3 5 gl_4x4 lifetime_ops h1 h2 h3⟩

/-! ## Two downloads of one texture (C3) -/

/-- C3: a GL texture of one transparent pixel, after `gdk_texture_release_gl`, is downloaded
twice with stride 4, into a buffer of zero bytes and into a buffer of bytes 255.  The first
download leaves byte 0 of the pixel row at 0, the second leaves it at 255: the rows written
differ with the previous content of the buffers. -/
theorem gl_download_depends_on_buffer :
    (downloaded gl_clear (released gl_clear 1 1 NULL NULL) (filled 0) 4).map (fun m => m 0)
      = some 0 ∧
    (downloaded gl_clear (released gl_clear 1 1 NULL NULL) (filled 255) 4).map (fun m => m 0)
      = some 255 := by
  decide

/-! ## Release of a GL texture (C4, C5) -/

/-- C4 (counterexample): a GL texture constructed with `destroy == NULL` and `data == 5` has
`data == 5` after `gdk_texture_release_gl`, not `NULL`; and for a GL texture of width 32768,
which `gdk_texture_new_for_gl` accepts, the surface stored in `saved` by
`gdk_texture_release_gl` is a cairo error surface: its width reads 0 and its data pointer is
`NULL`, so it holds no pixel read back. -/
theorem release_gl_keeps_data_without_destroy :
    ((released gl_clear 1 1 NULL 5).bind GDK_GL_TEXTURE).map (fun self => self.data) = some 5 ∧
    ((released gl_grey 32768 1 3 5).bind GDK_GL_TEXTURE).bind
      (fun self => self.saved.map
        (fun s => (s.status, cairo_image_surface_get_width s,
          (cairo_image_surface_get_data s).isNone)))
      = some (cairo_status_t.ERROR, 0, true) := by
  decide

/-- C4 (amended): for every GL texture in ACTIVE state (`saved == NULL`),
`gdk_texture_release_gl` issues exactly one readback of `id` through `context` at size
`width x height`, drawn with a context on the surface `cairo_image_surface_create (width,
height)`, whose target is stored in `saved`; it calls `destroy (data)` exactly once when
`destroy` is not `NULL`; it leaves `context == NULL`, `id == 0`, `destroy == NULL`,
`saved != NULL`, and `data == NULL` when `destroy` was not `NULL` (`data` is left as it was when
`destroy` was `NULL`); `width`, `height` and the render-data fields are unchanged.  When
`0 <= width <= 32767` and `0 <= height <= 32767` the snapshot is a new `width x height` image
surface with stride `4 * width` whose pixel rows are the rows read back; for any other size it
is the cairo error surface, which holds no pixels. -/
theorem release_gl_active (gl : GLServer) (t : GdkTexture) (self : GdkGLTexture)
    (hi : t.inst = Instance.gl self) (hs : self.saved = none) :
    gdk_texture_release_gl gl t =
      ({ t with
         inst := Instance.gl
           { context := NULL, id := 0,
             saved := some
               (gdk_cairo_draw_from_gl gl
                 (cairo_create (cairo_image_surface_create t.width t.height))
                 (gl.gdk_gl_context_get_window self.context) self.id t.width t.height).target,
             destroy := NULL,
             data := if self.destroy = NULL then self.data else NULL } },
       Event.gl_readback self.context self.id t.width t.height ::
         (if self.destroy = NULL then [] else [Event.destroy self.destroy self.data])) ∧
    (0 ≤ t.width → t.width ≤ MAX_IMAGE_SIZE → 0 ≤ t.height → t.height ≤ MAX_IMAGE_SIZE →
      (gdk_cairo_draw_from_gl gl (cairo_create (cairo_image_surface_create t.width t.height))
        (gl.gdk_gl_context_get_window self.context) self.id t.width t.height).target.status
          = cairo_status_t.SUCCESS ∧
      cairo_image_surface_get_width
        (gdk_cairo_draw_from_gl gl (cairo_create (cairo_image_surface_create t.width t.height))
          (gl.gdk_gl_context_get_window self.context) self.id t.width t.height).target
          = t.width ∧
      cairo_image_surface_get_height
        (gdk_cairo_draw_from_gl gl (cairo_create (cairo_image_surface_create t.width t.height))
          (gl.gdk_gl_context_get_window self.context) self.id t.width t.height).target
          = t.height ∧
      cairo_image_surface_get_stride
        (gdk_cairo_draw_from_gl gl (cairo_create (cairo_image_surface_create t.width t.height))
          (gl.gdk_gl_context_get_window self.context) self.id t.width t.height).target
          = 4 * t.width ∧
      ((∀ off, gl.read_pixels (gl.gdk_gl_context_get_window self.context) self.id t.width
          t.height off ≤ 255) →
        ∀ y b : Nat, (y : Int) < t.height → (b : Int) < 4 * t.width →
          (gdk_cairo_draw_from_gl gl (cairo_create (cairo_image_surface_create t.width t.height))
            (gl.gdk_gl_context_get_window self.context) self.id t.width t.height).target.data
              ((y : Int) * (4 * t.width) + b) =
            gl.read_pixels (gl.gdk_gl_context_get_window self.context) self.id t.width t.height
              ((y : Int) * (4 * t.width) + b))) ∧
    (¬ (0 ≤ t.width ∧ t.width ≤ MAX_IMAGE_SIZE ∧ 0 ≤ t.height ∧ t.height ≤ MAX_IMAGE_SIZE) →
      (gdk_cairo_draw_from_gl gl (cairo_create (cairo_image_surface_create t.width t.height))
        (gl.gdk_gl_context_get_window self.context) self.id t.width t.height).target
          = cairo_surface_in_error) := by
  refine ⟨?_, ?_, ?_⟩
  · by_cases hd : self.destroy = NULL
    · simp [gdk_texture_release_gl, hi, hs, call_destroy, hd]
    · simp [gdk_texture_release_gl, hi, hs, call_destroy, hd]
  · intro hw0 hw hh0 hh
    rw [draw_from_gl_ok gl _ self.id t.width t.height hw0 hw hh0 hh]
    refine ⟨rfl, ?_, ?_, ?_, ?_⟩
    · simp [cairo_image_surface_get_width, cairo_surface_is_image]
    · simp [cairo_image_surface_get_height, cairo_surface_is_image]
    · simp [cairo_image_surface_get_stride, cairo_surface_is_image]
    · intro hbytes y b hy hb
      obtain ⟨W, hW⟩ := Int.eq_ofNat_of_zero_le hw0
      obtain ⟨H, hH⟩ := Int.eq_ofNat_of_zero_le hh0
      have hcopy := copy_rows
        { status := cairo_status_t.SUCCESS, type := cairo_surface_type_t.IMAGE,
          width := t.width, height := t.height, stride := 4 * t.width,
          data := gl.read_pixels (gl.gdk_gl_context_get_window self.context) self.id t.width
            t.height }
        W H hW hH hbytes y b (by omega) (by omega)
      simp only [hW, hH, Int.toNat_ofNat] at hcopy ⊢
      exact hcopy
  · intro hbad
    exact draw_from_gl_in_error gl _ self.id t.width t.height hbad

/-- C4 (witness): the amended statement at the 4x4 GL texture of the scenario, with a GL server
delivering grey pixels: the release, and the rows of the snapshot. -/
theorem release_gl_active_witness :
    (gl_4x4.inst = Instance.gl { context := 1, id := 7, saved := none, destroy := 3, data := 5 } ∧
      (none : Option cairo_surface_t) = none) ∧
    gdk_texture_release_gl gl_grey gl_4x4 =
      ({ gl_4x4 with
         inst := Instance.gl
           { context := NULL, id := 0,
             saved := some
               (gdk_cairo_draw_from_gl gl_grey
                 (cairo_create (cairo_image_surface_create gl_4x4.width gl_4x4.height))
                 (gl_grey.gdk_gl_context_get_window 1) 7 gl_4x4.width gl_4x4.height).target,
             destroy := NULL,
             data := if (3 : gpointer) = NULL then 5 else NULL } },
       Event.gl_readback 1 7 gl_4x4.width gl_4x4.height ::
         (if (3 : gpointer) = NULL then [] else [Event.destroy 3 5])) ∧
    ((∀ off, gl_grey.read_pixels (gl_grey.gdk_gl_context_get_window 1) 7 gl_4x4.width
        gl_4x4.height off ≤ 255) →
      ∀ y b : Nat, (y : Int) < gl_4x4.height → (b : Int) < 4 * gl_4x4.width →
        (gdk_cairo_draw_from_gl gl_grey
          (cairo_create (cairo_image_surface_create gl_4x4.width gl_4x4.height))
          (gl_grey.gdk_gl_context_get_window 1) 7 gl_4x4.width gl_4x4.height).target.data
            ((y : Int) * (4 * gl_4x4.width) + b) =
          gl_grey.read_pixels (gl_grey.gdk_gl_context_get_window 1) 7 gl_4x4.width gl_4x4.height
            ((y : Int) * (4 * gl_4x4.width) + b)) :=
  ⟨⟨rfl, rfl⟩,
    (release_gl_active gl_grey gl_4x4
      { context := 1, id := 7, saved := none, destroy := 3, data := 5 } rfl rfl).1,
    ((release_gl_active gl_grey gl_4x4
      { context := 1, id := 7, saved := none, destroy := 3, data := 5 } rfl rfl).2.1
        (by decide) (by decide) (by decide) (by decide)).2.2.2.2⟩

/-- C5: `gdk_texture_release_gl` on a GL texture that is already RELEASED (`saved != NULL`)
fails its precondition and returns with the texture unchanged, the snapshot included; the only
event is the failed check, so no readback is issued and no destroy callback is called.  The same
holds for a cairo texture and for a pixbuf texture. -/
theorem release_gl_precondition (gl : GLServer) (t : GdkTexture) (self : GdkGLTexture)
    (saved surface : cairo_surface_t) (pixbuf : GdkPixbuf) :
    gdk_texture_release_gl gl { t with inst := Instance.gl { self with saved := some saved } } =
      ({ t with inst := Instance.gl { self with saved := some saved } }, [Event.critical]) ∧
    gdk_texture_release_gl gl { t with inst := Instance.cairo surface } =
      ({ t with inst := Instance.cairo surface }, [Event.critical]) ∧
    gdk_texture_release_gl gl { t with inst := Instance.pixbuf pixbuf } =
      ({ t with inst := Instance.pixbuf pixbuf }, [Event.critical]) := by
  refine ⟨rfl, rfl, rfl⟩

/-! ## Download of a released GL texture (C6) -/

/-- C6: a GL texture of one half-transparent grey pixel is released; the snapshot holds the
byte 64 at offset 0.  A download with stride 4 into a buffer of bytes 255 issues no readback
and leaves the byte 191 at offset 0, not the byte of the snapshot. -/
theorem gl_released_download_not_snapshot :
    ((released gl_grey 1 1 NULL NULL).bind GDK_GL_TEXTURE).bind
      (fun self => self.saved.map (fun s => s.data 0)) = some 64 ∧
    (downloaded gl_grey (released gl_grey 1 1 NULL NULL) (filled 255) 4).map (fun m => m 0)
      = some 191 ∧
    (released gl_grey 1 1 NULL NULL).map
      (fun t => (gdk_texture_download gl_grey t (some (filled 255)) 4).2) = some [] := by
  decide

/-! ## The stride check of `gdk_texture_download` (C7) -/

/-- C7: for a GL texture of width `2^30` the C `int` product `width * 4` is `0`, so
`gdk_texture_download` with a buffer and stride `0` passes the stride check and dispatches to
`gdk_gl_texture_download` (the readback is issued), although `0 < 4 * 2^30`. -/
theorem download_stride_check_overflow :
    wrap_int (2 ^ 30 * 4) = 0 ∧
    (gdk_texture_new_for_gl true 1 7 (2 ^ 30) 1 NULL NULL).1.map
      (fun t => (gdk_texture_download gl_clear t (some (filled 0)) 0).2)
      = some [Event.gl_readback 1 7 (2 ^ 30) 1] := by
  decide

/-! ## Width and height (C8, C9) -/

/-- C8: every texture a factory returns for a width `w > 0` and a height `h > 0` (C `int`
values) has `gdk_texture_get_width` equal to `w` and `gdk_texture_get_height` equal to `h`, at
once and after each call of any sequence of `gdk_texture_download`,
`gdk_texture_download_surface`, `gdk_texture_set_render_data`,
`gdk_texture_clear_render_data`, `gdk_texture_get_render_data`, `gdk_texture_release_gl` (and
`dispose`) calls.  `gdk_texture_new_for_surface` (for a surface whose width and height read `w`
and `h`), `gdk_texture_new_for_pixbuf` and `gdk_texture_new_for_gl` return such a texture for
every such size, `gdk_texture_new_for_data` for every size cairo accepts for the copy
(`w, h <= 32767`). -/
theorem texture_size_never_changes (gl : GLServer) (ops : List Op) (w h : Int)
    (hw : 0 < w) (hh : 0 < h) (hwmax : w ≤ G_MAXINT) (hhmax : h ≤ G_MAXINT) :
    (∀ (data : Mem) (stride : Int) (t : GdkTexture),
      (gdk_texture_new_for_data data w h stride).1 = some t → keeps_size gl ops w h t) ∧
    (w ≤ MAX_IMAGE_SIZE → h ≤ MAX_IMAGE_SIZE → ∀ (data : Mem) (stride : Int), ∃ t,
      (gdk_texture_new_for_data data w h stride).1 = some t ∧ keeps_size gl ops w h t) ∧
    (∀ surface : cairo_surface_t, cairo_image_surface_get_width surface = w →
      cairo_image_surface_get_height surface = h → ∃ t,
      (gdk_texture_new_for_surface surface).1 = some t ∧ keeps_size gl ops w h t) ∧
    (∀ pixbuf : GdkPixbuf, pixbuf.width = w → pixbuf.height = h → ∃ t,
      (gdk_texture_new_for_pixbuf (some pixbuf)).1 = some t ∧ keeps_size gl ops w h t) ∧
    (∀ (context : gpointer) (id : Nat) (destroy data : gpointer), context ≠ NULL → id ≠ 0 →
      ∃ t, (gdk_texture_new_for_gl true context id w h destroy data).1 = some t ∧
        keeps_size gl ops w h t) := by
  refine ⟨?_, ?_, ?_, ?_, ?_⟩
  · intro data stride t ht
    by_cases hsize : w ≤ MAX_IMAGE_SIZE ∧ h ≤ MAX_IMAGE_SIZE
    · obtain ⟨surface, hnew⟩ := new_for_data_size data w h stride hw hh hsize.1 hsize.2
      rw [hnew] at ht
      simp only [Option.some.injEq] at ht
      subst ht
      exact keeps_size_of gl ops w h _ rfl rfl
    · rw [new_for_data_too_large data w h stride hsize] at ht
      exact absurd ht (by simp)
  · intro hwi hhi data stride
    obtain ⟨surface, hnew⟩ := new_for_data_size data w h stride hw hh hwi hhi
    rw [hnew]
    exact ⟨_, rfl, keeps_size_of gl ops w h _ rfl rfl⟩
  · intro surface hsw hsh
    have hs := g_object_new_size (Instance.cairo surface) w h hw hh hwmax hhmax
    refine ⟨g_object_new (Instance.cairo surface) w h, ?_, keeps_size_of gl ops w h _ hs.1 hs.2⟩
    have ht : surface.type = cairo_surface_type_t.IMAGE := by
      by_contra hne
      have h0 : cairo_image_surface_get_width surface = 0 := by
        simp [cairo_image_surface_get_width, cairo_surface_is_image, hne]
      omega
    simp [gdk_texture_new_for_surface, ht, hsw, hsh, hw, hh]
  · intro pixbuf hpw hph
    have hs := g_object_new_size (Instance.pixbuf pixbuf) w h hw hh hwmax hhmax
    refine ⟨g_object_new (Instance.pixbuf pixbuf) w h, ?_, keeps_size_of gl ops w h _ hs.1 hs.2⟩
    simp [gdk_texture_new_for_pixbuf, hpw, hph]
  · intro context id destroy data hc hid
    rw [new_for_gl_eq context id w h destroy data hc hid hw hh hwmax hhmax]
    exact ⟨_, rfl, keeps_size_of gl ops w h _ rfl rfl⟩

/-- C8 (witness): the statement at width 4, height 4 and a sequence of calls. -/
theorem texture_size_never_changes_witness :
    ((0 : Int) < 4 ∧ (4 : Int) ≤ G_MAXINT) ∧
    ((∀ (data : Mem) (stride : Int) (t : GdkTexture),
      (gdk_texture_new_for_data data 4 4 stride).1 = some t →
        keeps_size gl_clear sample_ops 4 4 t) ∧
    ((4 : Int) ≤ MAX_IMAGE_SIZE → (4 : Int) ≤ MAX_IMAGE_SIZE → ∀ (data : Mem) (stride : Int),
      ∃ t, (gdk_texture_new_for_data data 4 4 stride).1 = some t ∧
        keeps_size gl_clear sample_ops 4 4 t) ∧
    (∀ surface : cairo_surface_t, cairo_image_surface_get_width surface = 4 →
      cairo_image_surface_get_height surface = 4 → ∃ t,
      (gdk_texture_new_for_surface surface).1 = some t ∧ keeps_size gl_clear sample_ops 4 4 t) ∧
    (∀ pixbuf : GdkPixbuf, pixbuf.width = 4 → pixbuf.height = 4 → ∃ t,
      (gdk_texture_new_for_pixbuf (some pixbuf)).1 = some t ∧
        keeps_size gl_clear sample_ops 4 4 t) ∧
    (∀ (context : gpointer) (id : Nat) (destroy data : gpointer), context ≠ NULL → id ≠ 0 →
      ∃ t, (gdk_texture_new_for_gl true context id 4 4 destroy data).1 = some t ∧
        keeps_size gl_clear sample_ops 4 4 t)) :=
  ⟨⟨by decide, by decide⟩,
    texture_size_never_changes gl_clear sample_ops 4 4 (by decide) (by decide) (by decide)
      (by decide)⟩

/-- C10 (counterexample): four calls with `width > 0`, `height > 0` and strides of at least
`4 * width` for which the round trip fails, each on opaque white data (bytes 255).  A 1x2
texture made with source stride 4 is downloaded into a zeroed buffer with destination stride 5:
cairo refuses a stride that is not a multiple of 4, nothing is written, and `out[0]` is still
0.  The same texture is downloaded with destination stride
`2^32 + 4`: the stride reaches cairo as the C `int` 4, so row 1 is written at offset 4 and
`out[1 * (2^32 + 4) + 0]` is still 0.  With source stride 6 cairo refuses the source, the copy
kept by the texture stays transparent, and a download with stride 4 writes 0 at `out[0]`.  For
width 32768 `gdk_texture_new_for_data` returns `NULL`. -/
theorem download_stride_beyond_int :
    filled 255 0 = 255 ∧ filled 255 (1 * 4 + 0) = 255 ∧
    (downloaded gl_clear (gdk_texture_new_for_data (filled 255) 1 2 4).1 (filled 0) 5).map
      (fun out => out 0) = some 0 ∧
    wrap_int (2 ^ 32 + 4 : Nat) = 4 ∧
    (downloaded gl_clear (gdk_texture_new_for_data (filled 255) 1 2 4).1 (filled 0)
      (2 ^ 32 + 4)).map (fun out => out (1 * (2 ^ 32 + 4) + 0)) = some 0 ∧
    (downloaded gl_clear (gdk_texture_new_for_data (filled 255) 1 2 6).1 (filled 7) 4).map
      (fun out => out 0) = some 0 ∧
    (gdk_texture_new_for_data (filled 255) 32768 1 (4 * 32768)).1.isNone = true := by
  decide

/-- C10 (amended): for `0 < width <= 32767`, `0 < height <= 32767`, a source stride that is a
multiple of 4 with `stride >= 4 * width`, pixel data made of bytes, and a destination stride
`d` that is a multiple of 4 with `4 * width <= d <= G_MAXINT`,
`gdk_texture_new_for_data (data, width, height, stride)` returns a texture, and
`gdk_texture_download (texture, out, d)` then leaves `out[y * d + b] == data[y * stride + b]`
for every row `y < height` and byte `b < 4 * width`, and leaves the bytes of `out` at offsets
`4 * width <= b < d` of each row unchanged. -/
theorem new_for_data_download_roundtrip (gl : GLServer) (data out : Mem)
    (width height stride : Int) (d : Nat)
    (hw : 0 < width) (hwmax : width ≤ MAX_IMAGE_SIZE)
    (hh : 0 < height) (hhmax : height ≤ MAX_IMAGE_SIZE)
    (hs4 : stride % 4 = 0) (hs : 4 * width ≤ stride)
    (hdata : ∀ off, data off ≤ 255)
    (hd4 : (d : Int) % 4 = 0) (hd : 4 * width ≤ (d : Int)) (hdmax : (d : Int) ≤ G_MAXINT) :
    ∃ t out2, gdk_texture_new_for_data data width height stride = (some t, []) ∧
      gdk_texture_download gl t (some out) d = (some out2, []) ∧
      (∀ y b : Nat, (y : Int) < height → (b : Int) < 4 * width →
        out2 ((y : Int) * d + b) = data ((y : Int) * stride + b)) ∧
      (∀ y b : Nat, (y : Int) < height → 4 * width ≤ (b : Int) → b < d →
        out2 ((y : Int) * d + b) = out ((y : Int) * d + b)) := by
  obtain ⟨W, rfl⟩ := Int.eq_ofNat_of_zero_le (le_of_lt hw)
  obtain ⟨H, rfl⟩ := Int.eq_ofNat_of_zero_le (le_of_lt hh)
  have hnew := new_for_data_eq data W H stride hw hh hwmax hhmax hs4 hs
  simp only [Int.toNat_ofNat] at hnew
  rw [hnew]
  refine ⟨_, _, rfl, download_cairo_eq gl _ _ out W d rfl rfl hd hdmax, ?_, ?_⟩
  · intro y b hy hb
    refine ((cairo_download_rows _ _ out W H d ?_ ?_ ?_ ?_ ?_ hwmax hhmax hd4 hd hdmax).1 y b
      ?_ ?_).trans ?_
    · rfl
    · rfl
    · rfl
    · rfl
    · rfl
    · omega
    · omega
    · exact copy_rows
        { status := cairo_status_t.SUCCESS, type := cairo_surface_type_t.IMAGE,
          width := W, height := H, stride := stride, data := data }
        W H rfl rfl hdata y b (by omega) (by omega)
  · intro y b hy hb hbd
    refine (cairo_download_rows _ _ out W H d ?_ ?_ ?_ ?_ ?_ hwmax hhmax hd4 hd hdmax).2 y b
      ?_ ?_ hbd
    · rfl
    · rfl
    · rfl
    · rfl
    · rfl
    · omega
    · omega

/-- C10 (witness): the scenario of a 2x2 buffer of red pixels with stride 8, downloaded into a
zeroed buffer with stride 8. -/
theorem new_for_data_download_roundtrip_witness :
    ((0 : Int) < 2 ∧ (2 : Int) ≤ MAX_IMAGE_SIZE ∧ (8 : Int) % 4 = 0 ∧ 4 * (2 : Int) ≤ 8 ∧
      (∀ off, red_pixels off ≤ 255) ∧ ((8 : Nat) : Int) % 4 = 0 ∧
      4 * (2 : Int) ≤ ((8 : Nat) : Int) ∧ ((8 : Nat) : Int) ≤ G_MAXINT) ∧
    ∃ t out2, gdk_texture_new_for_data red_pixels 2 2 8 = (some t, []) ∧
      gdk_texture_download gl_clear t (some (filled 0)) 8 = (some out2, []) ∧
      (∀ y b : Nat, (y : Int) < 2 → (b : Int) < 4 * 2 →
        out2 ((y : Int) * (8 : Nat) + b) = red_pixels ((y : Int) * 8 + b)) ∧
      (∀ y b : Nat, (y : Int) < 2 → 4 * 2 ≤ (b : Int) → b < 8 →
        out2 ((y : Int) * (8 : Nat) + b) = filled 0 ((y : Int) * (8 : Nat) + b)) :=
  ⟨⟨by decide, by decide, by decide, by decide, red_pixels_bytes, by decide, by decide,
      by decide⟩,
    new_for_data_download_roundtrip gl_clear red_pixels (filled 0) 2 2 8 8 (by decide)
      (by decide) (by decide) (by decide) (by decide) (by decide) red_pixels_bytes (by decide)
      (by decide) (by decide)⟩

/-! ## Lookup in the render-data slot (C11) -/

/-- C11: `gdk_texture_get_render_data (key)` returns the stored `render_data` when `key` is the
stored `render_key` and `NULL` otherwise, and the call leaves the texture unchanged and makes no
call; after `gdk_texture_set_render_data (k, d, n)` has returned `TRUE`, a lookup with `k`
returns `d` and a lookup with any other key returns `NULL`. -/
theorem get_render_data_by_key (gl : GLServer) (t : GdkTexture) (key k d n : gpointer) :
    gdk_texture_get_render_data t key = (if key = t.render_key then t.render_data else NULL) ∧
    (step gl t (Op.get_render_data key)).tex = t ∧
    (step gl t (Op.get_render_data key)).log = [] ∧
    ((gdk_texture_set_render_data t k d n).1 = true →
      gdk_texture_get_render_data (gdk_texture_set_render_data t k d n).2.1 k = d ∧
      ∀ k2, k2 ≠ k →
        gdk_texture_get_render_data (gdk_texture_set_render_data t k d n).2.1 k2 = NULL) := by
  refine ⟨?_, rfl, rfl, ?_⟩
  · unfold gdk_texture_get_render_data
    by_cases h : key = t.render_key
    · simp [h]
    · have h2 : t.render_key ≠ key := fun e => h e.symm
      simp [h, h2]
  · intro hset
    unfold gdk_texture_set_render_data at hset ⊢
    split_ifs at hset ⊢
    constructor
    · simp [gdk_texture_get_render_data]
    · intro k2 hk2
      have h2 : k ≠ k2 := fun e => hk2 e.symm
      simp [gdk_texture_get_render_data, h2]

/-- C11 (witness): a lookup after the entry `(9, 5, 7)` was set on a 1x1 texture. -/
theorem get_render_data_by_key_witness :
    (gdk_texture_set_render_data tex_1x1 9 5 7).1 = true ∧
    gdk_texture_get_render_data (gdk_texture_set_render_data tex_1x1 9 5 7).2.1 9 = 5 ∧
    ∀ k2, k2 ≠ 9 →
      gdk_texture_get_render_data (gdk_texture_set_render_data tex_1x1 9 5 7).2.1 k2 = NULL :=
  ⟨by decide, (get_render_data_by_key gl_clear tex_1x1 9 9 5 7).2.2.2 (by decide)⟩

/-! ## Clearing the render-data slot (C12) -/

/-- C12: `gdk_texture_clear_render_data` calls the stored release callback exactly once with
the stored `render_data` when the callback is not `NULL` and calls nothing when it is `NULL`,
and leaves `render_key`, `render_data` and `render_notify` at `NULL`; a second clear right
after calls nothing and changes nothing; the next `gdk_texture_set_render_data` with data that
is not `NULL` returns `TRUE`.  `gdk_texture_dispose` is this clear, and the `dispose` of a
texture of any type makes exactly the calls of the release callback that the clear makes and
leaves the three fields at `NULL`. -/
theorem clear_render_data_releases (t : GdkTexture) (key data notify : gpointer) :
    gdk_texture_clear_render_data t =
      ({ t with render_key := NULL, render_data := NULL, render_notify := NULL },
        if t.render_notify = NULL then []
        else [Event.render_notify t.render_notify t.render_data]) ∧
    gdk_texture_clear_render_data (gdk_texture_clear_render_data t).1 =
      ((gdk_texture_clear_render_data t).1, []) ∧
    (data ≠ NULL →
      (gdk_texture_set_render_data (gdk_texture_clear_render_data t).1 key data notify).1
        = true) ∧
    gdk_texture_dispose t = gdk_texture_clear_render_data t ∧
    render_notify_calls (dispose t).2 =
      (if t.render_notify = NULL then []
       else [Event.render_notify t.render_notify t.render_data]) ∧
    (dispose t).1.render_key = NULL ∧ (dispose t).1.render_data = NULL ∧
    (dispose t).1.render_notify = NULL := by
  refine ⟨?_, ?_, ?_, rfl, ?_, ?_, ?_, ?_⟩
  · by_cases hn : t.render_notify = NULL <;> simp [gdk_texture_clear_render_data, hn]
  · simp [gdk_texture_clear_render_data]
  · intro hd
    simp [gdk_texture_clear_render_data, gdk_texture_set_render_data, hd]
  · cases hi : t.inst with
    | cairo s =>
      by_cases hn : t.render_notify = NULL <;>
      simp [dispose, hi, gdk_texture_dispose, gdk_texture_clear_render_data, hn,
        render_notify_calls, Event.is_render_notify]
    | pixbuf p =>
      by_cases hn : t.render_notify = NULL <;>
      simp [dispose, hi, gdk_texture_dispose, gdk_texture_clear_render_data, hn,
        render_notify_calls, Event.is_render_notify]
    | gl self =>
      by_cases hn : t.render_notify = NULL <;> by_cases hd : self.destroy = NULL <;>
      simp [dispose, hi, gdk_gl_texture_dispose, call_destroy, gdk_texture_dispose,
        gdk_texture_clear_render_data, hn, hd, render_notify_calls, Event.is_render_notify]
  · cases hi : t.inst <;>
    simp [dispose, hi, gdk_gl_texture_dispose, gdk_texture_dispose,
      gdk_texture_clear_render_data]
  · cases hi : t.inst <;>
    simp [dispose, hi, gdk_gl_texture_dispose, gdk_texture_dispose,
      gdk_texture_clear_render_data]
  · cases hi : t.inst <;>
    simp [dispose, hi, gdk_gl_texture_dispose, gdk_texture_dispose,
      gdk_texture_clear_render_data]

/-- C12 (witness): after a clear of the GL texture holding the entry `(9, 6, 8)`, a set with
data 4 returns `TRUE`. -/
theorem clear_render_data_releases_witness :
    (4 : gpointer) ≠ NULL ∧
    (gdk_texture_set_render_data (gdk_texture_clear_render_data gl_2x2).1 3 4 0).1 = true :=
  ⟨by decide, (clear_render_data_releases gl_2x2 3 4 0).2.2.1 (by decide)⟩

/-! ## Construction of a GL texture (C13) -/

/-- C13: `gdk_texture_new_for_gl` returns `NULL`, with a failed check as its only event (the
destroy callback is not called), when the context is not a GL context, or `id == 0`, or
`width <= 0`, or `height <= 0`; otherwise it returns a GL texture whose fields are exactly the
given `context`, `id`, `destroy` and `data`, with `saved == NULL` (ACTIVE state), the given
`width` and `height` (C `int` values) and an empty render-data slot. -/
theorem new_for_gl_result (is_gl_context : Bool) (context : gpointer) (id : Nat)
    (width height : Int) (destroy data : gpointer)
    (hwmax : width ≤ G_MAXINT) (hhmax : height ≤ G_MAXINT) :
    gdk_texture_new_for_gl is_gl_context context id width height destroy data =
      (if context = NULL ∨ is_gl_context = false ∨ id = 0 ∨ width ≤ 0 ∨ height ≤ 0 then
        (none, [Event.critical])
      else
        (some
          { width := width, height := height, render_key := NULL, render_data := NULL,
            render_notify := NULL,
            inst := Instance.gl
              { context := context, id := id, saved := none, destroy := destroy,
                data := data } }, [])) := by
  by_cases hbad : context = NULL ∨ is_gl_context = false ∨ id = 0 ∨ width ≤ 0 ∨ height ≤ 0
  · rw [if_pos hbad]
    unfold gdk_texture_new_for_gl
    by_cases hc : context ≠ NULL ∧ is_gl_context = true
    · by_cases hid : id ≠ 0
      · by_cases hw : width > 0
        · have hh : ¬ height > 0 := by
            rcases hbad with h | h | h | h | h
            · exact absurd h hc.1
            · rw [hc.2] at h; exact absurd h (by decide)
            · exact absurd h hid
            · omega
            · omega
          rw [if_neg (not_not.mpr hc), if_neg (not_not.mpr hid), if_neg (not_not.mpr hw),
            if_pos hh]
        · rw [if_neg (not_not.mpr hc), if_neg (not_not.mpr hid), if_pos hw]
      · rw [if_neg (not_not.mpr hc), if_pos hid]
    · rw [if_pos hc]
  · rw [if_neg hbad]
    have hc : context ≠ NULL := fun h => hbad (Or.inl h)
    have hg : is_gl_context = true := by
      cases is_gl_context
      · exact absurd (Or.inr (Or.inl rfl)) hbad
      · rfl
    have hid : id ≠ 0 := fun h => hbad (Or.inr (Or.inr (Or.inl h)))
    have hw : 0 < width := by
      by_contra h
      exact hbad (Or.inr (Or.inr (Or.inr (Or.inl (by omega)))))
    have hh : 0 < height := by
      by_contra h
      exact hbad (Or.inr (Or.inr (Or.inr (Or.inr (by omega)))))
    subst hg
    exact new_for_gl_eq context id width height destroy data hc hid hw hh hwmax hhmax

/-- C13 (witness): the scenario of a 4x4 GL texture with id 7. -/
theorem new_for_gl_result_witness :
    ((4 : Int) ≤ G_MAXINT) ∧
    gdk_texture_new_for_gl true 1 7 4 4 3 5 =
      (if (1 : gpointer) = NULL ∨ true = false ∨ 7 = 0 ∨ (4 : Int) ≤ 0 ∨ (4 : Int) ≤ 0 then
        (none, [Event.critical])
      else
        (some
          { width := 4, height := 4, render_key := NULL, render_data := NULL,
            render_notify := NULL,
            inst := Instance.gl
              { context := 1, id := 7, saved := none, destroy := 3, data := 5 } }, [])) :=
  ⟨by decide, new_for_gl_result true 1 7 4 4 3 5 (by decide) (by decide)⟩

/-! ## Dispose of a GL texture (C14) -/

/-- C14 (counterexample): `dispose` of the ACTIVE GL texture returned by
`gdk_texture_new_for_gl` for `destroy == NULL` and `data == 5` leaves `data == 5`: the data
pointer is not cleared. -/
theorem gl_dispose_keeps_data_without_destroy :
    ((gdk_texture_new_for_gl true 1 7 2 2 NULL 5).1.bind
      (fun t => GDK_GL_TEXTURE (dispose t).1)).map (fun self => self.data) = some 5 := by
  decide

/-- C14 (amended): `dispose` of a GL texture calls `destroy (data)` exactly once when `destroy`
is not `NULL`, clears `context`, `id` and `destroy`, clears `data` when `destroy` was not
`NULL` (`data` is left as it was when `destroy` was `NULL`), leaves `saved == NULL` and issues
no GPU readback: its only other call is the release callback of the render-data slot.  For an
ACTIVE texture no snapshot is created; for a RELEASED texture (`destroy == NULL`, as
`gdk_texture_release_gl` leaves it) the snapshot is dropped and no destroy callback is
called. -/
theorem gl_dispose_result (gl : GLServer) (t : GdkTexture) (self : GdkGLTexture)
    (hi : t.inst = Instance.gl self) :
    dispose t =
      ({ t with
         render_key := NULL, render_data := NULL, render_notify := NULL,
         inst := Instance.gl
           { context := NULL, id := 0, saved := none, destroy := NULL,
             data := if self.destroy = NULL then self.data else NULL } },
       (if self.destroy = NULL then [] else [Event.destroy self.destroy self.data]) ++
         (if t.render_notify = NULL then []
          else [Event.render_notify t.render_notify t.render_data])) ∧
    readbacks (dispose t).2 = [] ∧
    (RELEASED self → destroy_calls (dispose t).2 = []) ∧
    (self.saved = none →
      is_released (gdk_texture_release_gl gl t).1 ∧
      destroy_calls (dispose (gdk_texture_release_gl gl t).1).2 = [] ∧
      readbacks (dispose (gdk_texture_release_gl gl t).1).2 = [] ∧
      (GDK_GL_TEXTURE (dispose (gdk_texture_release_gl gl t).1).1).map
        (fun self => self.saved.isNone) = some true) := by
  refine ⟨?_, ?_, ?_, ?_⟩
  · by_cases hn : t.render_notify = NULL <;> by_cases hd : self.destroy = NULL <;>
    simp [dispose, hi, gdk_gl_texture_dispose, call_destroy, gdk_texture_dispose,
      gdk_texture_clear_render_data, hn, hd]
  · by_cases hn : t.render_notify = NULL <;> by_cases hd : self.destroy = NULL <;>
    simp [dispose, hi, gdk_gl_texture_dispose, call_destroy, gdk_texture_dispose,
      gdk_texture_clear_render_data, hn, hd, readbacks, Event.is_readback]
  · intro hrel
    have hd : self.destroy = NULL := hrel.2.2.2
    by_cases hn : t.render_notify = NULL <;>
    simp [dispose, hi, gdk_gl_texture_dispose, call_destroy, gdk_texture_dispose,
      gdk_texture_clear_render_data, hn, hd, destroy_calls, Event.is_destroy]
  · intro hs
    by_cases hn : t.render_notify = NULL <;> by_cases hd : self.destroy = NULL <;>
    simp [gdk_texture_release_gl, hi, hs, call_destroy, hd, dispose, gdk_gl_texture_dispose,
      gdk_texture_dispose, gdk_texture_clear_render_data, hn, destroy_calls, readbacks,
      Event.is_destroy, Event.is_readback, Event.is_render_notify, is_released, RELEASED,
      GDK_GL_TEXTURE]

/-- C14 (witness): the amended statement at the 4x4 GL texture of the scenario. -/
theorem gl_dispose_result_witness :
    (gl_4x4.inst = Instance.gl { context := 1, id := 7, saved := none, destroy := 3, data := 5 }) ∧
    dispose gl_4x4 =
      ({ gl_4x4 with
         render_key := NULL, render_data := NULL, render_notify := NULL,
         inst := Instance.gl
           { context := NULL, id := 0, saved := none, destroy := NULL,
             data := if (3 : gpointer) = NULL then 5 else NULL } },
       (if (3 : gpointer) = NULL then [] else [Event.destroy 3 5]) ++
         (if gl_4x4.render_notify = NULL then []
          else [Event.render_notify gl_4x4.render_notify gl_4x4.render_data])) :=
  ⟨rfl, (gl_dispose_result gl_clear gl_4x4
    { context := 1, id := 7, saved := none, destroy := 3, data := 5 } rfl).1⟩

/-! ## Setting an entry in an empty render-data slot (C15) -/

/-- C15: on a texture whose render-data slot is empty (`render_key == NULL`, as on a texture
just constructed and after `gdk_texture_clear_render_data`), for every key, data that is not
`NULL` and notify, `gdk_texture_set_render_data (key, data, notify)` returns `TRUE`, stores
exactly `(key, data, notify)`, changes no other field and makes no call. -/
theorem set_render_data_empty_slot (key data notify : gpointer) (hdata : data ≠ NULL) :
    (∀ t : GdkTexture, t.render_key = NULL →
      gdk_texture_set_render_data t key data notify =
        (true, { t with render_key := key, render_data := data, render_notify := notify },
          [])) ∧
    (∀ (inst : Instance) (width height : Int),
      (g_object_new inst width height).render_key = NULL) ∧
    (∀ t : GdkTexture, (gdk_texture_clear_render_data t).1.render_key = NULL) := by
  refine ⟨?_, ?_, ?_⟩
  · intro t hempty
    simp [gdk_texture_set_render_data, hdata, hempty]
  · intro inst width height
    unfold g_object_new object_set_property gdk_texture_set_property
    split_ifs <;> rfl
  · intro t
    rfl

/-- C15 (witness): the entry `(9, 5, 7)` set on a 1x1 texture just constructed. -/
theorem set_render_data_empty_slot_witness :
    (5 : gpointer) ≠ NULL ∧ tex_1x1.render_key = NULL ∧
    gdk_texture_set_render_data tex_1x1 9 5 7 =
      (true, { tex_1x1 with render_key := 9, render_data := 5, render_notify := 7 }, []) :=
  ⟨by decide, by decide,
    (set_render_data_empty_slot 9 5 7 (by decide)).1 tex_1x1 (by decide)⟩

/-! ## Virtual functions of the texture classes (C16) -/

theorem to_gsize_small (x : Int) (h0 : 0 ≤ x) (h1 : x < 2 ^ 64) : to_gsize x = x.toNat := by
  unfold to_gsize
  rw [Int.emod_eq_of_lt h0 h1]

theorem download_log_implemented (gl : GLServer) (t : GdkTexture) (data : Option Mem)
    (stride : Nat) : Event.not_implemented ∉ (gdk_texture_download gl t data stride).2 := by
  unfold gdk_texture_download
  cases data with
  | none => simp
  | some mem =>
    simp only
    split_ifs
    · cases hi : t.inst with
      | cairo s =>
        simp [call_download, GDK_TEXTURE_GET_CLASS, G_OBJECT_TYPE, g_type_class,
          gdk_cairo_texture_class_init, hi, gdk_cairo_texture_download]
      | pixbuf p =>
        simp [call_download, GDK_TEXTURE_GET_CLASS, G_OBJECT_TYPE, g_type_class,
          gdk_pixbuf_texture_class_init, hi, gdk_pixbuf_texture_download]
      | gl self =>
        cases hs : self.saved with
        | none =>
          simp [call_download, GDK_TEXTURE_GET_CLASS, G_OBJECT_TYPE, g_type_class,
            gdk_gl_texture_class_init, hi, gdk_gl_texture_download, hs]
        | some s =>
          simp [call_download, GDK_TEXTURE_GET_CLASS, G_OBJECT_TYPE, g_type_class,
            gdk_gl_texture_class_init, hi, gdk_gl_texture_download, hs]
    · simp

theorem new_for_surface_type (surface : cairo_surface_t) (t : GdkTexture)
    (h : (gdk_texture_new_for_surface surface).1 = some t) :
    G_OBJECT_TYPE t = GType.GDK_TYPE_CAIRO_TEXTURE := by
  unfold gdk_texture_new_for_surface at h
  split_ifs at h
  simp only [Option.some.injEq] at h
  subst h
  unfold g_object_new object_set_property gdk_texture_set_property G_OBJECT_TYPE
  split_ifs <;> rfl

theorem new_for_pixbuf_type (pixbuf : Option GdkPixbuf) (t : GdkTexture)
    (h : (gdk_texture_new_for_pixbuf pixbuf).1 = some t) :
    G_OBJECT_TYPE t = GType.GDK_TYPE_PIXBUF_TEXTURE := by
  unfold gdk_texture_new_for_pixbuf at h
  cases pixbuf with
  | none => simp at h
  | some p =>
    simp only [Option.some.injEq] at h
    subst h
    unfold g_object_new object_set_property gdk_texture_set_property G_OBJECT_TYPE
    split_ifs <;> rfl

/-- C16 (counterexample): on the GL texture `gdk_texture_new_for_gl` returns for width 32768
and height 1, `gdk_texture_download_surface` creates a cairo error surface; it calls
`gdk_texture_download` with a `NULL` data pointer and stride 0, which fails its check (the only
event is the failed check, no readback), and returns the error surface.  A call of
`gdk_texture_download` with a buffer and stride `4 * 32768` on that texture issues the
readback. -/
theorem download_surface_beyond_image_limit :
    (gdk_texture_new_for_gl true 1 7 32768 1 NULL NULL).1.map
      (fun t => ((gdk_texture_download_surface gl_clear t).2,
        (gdk_texture_download_surface gl_clear t).1.status,
        cairo_image_surface_get_stride (cairo_image_surface_create t.width t.height),
        (cairo_image_surface_get_data (cairo_image_surface_create t.width t.height)).isNone))
      = some ([Event.critical], cairo_status_t.ERROR, 0, true) ∧
    (gdk_texture_new_for_gl true 1 7 32768 1 NULL NULL).1.map
      (fun t => (gdk_texture_download gl_clear t (some (filled 0)) (4 * 32768)).2)
      = some [Event.gl_readback 1 7 32768 1] := by
  decide

/-- C16 (amended): every texture a factory function returns has a concrete type (cairo texture
for `gdk_texture_new_for_data` and `gdk_texture_new_for_surface`, pixbuf texture for
`gdk_texture_new_for_pixbuf`, `gdk_texture_new_from_resource` and `gdk_texture_new_from_file`,
GL texture for `gdk_texture_new_for_gl`); the class of each of the three types has its own
function in the `download` slot, so `gdk_texture_download` never emits the critical of
`gdk_texture_real_download`; and the class of the GL texture keeps the base function in the
`download_surface` slot, so `gdk_texture_download_surface` on a GL texture is
`gdk_texture_real_download_surface`.  When `0 <= width <= 32767` and `0 <= height <= 32767`
that function creates a `width x height` surface and calls `gdk_texture_download` on its data
with stride `4 * width`; for any other size the surface is the cairo error surface, the call
is made with `NULL` and stride 0 and fails its check, and the error surface is returned. -/
theorem factories_override_download (gl : GLServer) :
    (∀ (data : Mem) (width height stride : Int) (t : GdkTexture),
      (gdk_texture_new_for_data data width height stride).1 = some t →
        G_OBJECT_TYPE t = GType.GDK_TYPE_CAIRO_TEXTURE) ∧
    (∀ (surface : cairo_surface_t) (t : GdkTexture),
      (gdk_texture_new_for_surface surface).1 = some t →
        G_OBJECT_TYPE t = GType.GDK_TYPE_CAIRO_TEXTURE) ∧
    (∀ (pixbuf : Option GdkPixbuf) (t : GdkTexture),
      (gdk_texture_new_for_pixbuf pixbuf).1 = some t →
        G_OBJECT_TYPE t = GType.GDK_TYPE_PIXBUF_TEXTURE) ∧
    (∀ (resource_path : gpointer) (pixbuf : Option GdkPixbuf) (t : GdkTexture),
      (gdk_texture_new_from_resource resource_path pixbuf).1 = some t →
        G_OBJECT_TYPE t = GType.GDK_TYPE_PIXBUF_TEXTURE) ∧
    (∀ (is_file error_clear : Bool) (stream : gpointer) (pixbuf : Option GdkPixbuf)
      (t : GdkTexture),
      (gdk_texture_new_from_file is_file error_clear stream pixbuf).1 = some t →
        G_OBJECT_TYPE t = GType.GDK_TYPE_PIXBUF_TEXTURE) ∧
    (∀ (is_gl_context : Bool) (context : gpointer) (id : Nat) (width height : Int)
      (destroy data : gpointer) (t : GdkTexture),
      (gdk_texture_new_for_gl is_gl_context context id width height destroy data).1 = some t →
        G_OBJECT_TYPE t = GType.GDK_TYPE_GL_TEXTURE) ∧
    (∀ type : GType, (g_type_class type).download ≠ DownloadFunc.gdk_texture_real_download) ∧
    (∀ (t : GdkTexture) (data : Option Mem) (stride : Nat),
      Event.not_implemented ∉ (gdk_texture_download gl t data stride).2) ∧
    (g_type_class GType.GDK_TYPE_GL_TEXTURE).download_surface =
      DownloadSurfaceFunc.gdk_texture_real_download_surface ∧
    (∀ t : GdkTexture, G_OBJECT_TYPE t = GType.GDK_TYPE_GL_TEXTURE →
      gdk_texture_download_surface gl t = gdk_texture_real_download_surface gl t ∧
      (0 ≤ t.width → t.width ≤ MAX_IMAGE_SIZE → 0 ≤ t.height → t.height ≤ MAX_IMAGE_SIZE →
        gdk_texture_real_download_surface gl t =
          ({ cairo_image_surface_create t.width t.height with
             data := (gdk_texture_download gl t
               (some (cairo_image_surface_create t.width t.height).data)
               (4 * t.width).toNat).1.getD (cairo_image_surface_create t.width t.height).data },
           (gdk_texture_download gl t (some (cairo_image_surface_create t.width t.height).data)
             (4 * t.width).toNat).2)) ∧
      (¬ (0 ≤ t.width ∧ t.width ≤ MAX_IMAGE_SIZE ∧ 0 ≤ t.height ∧ t.height ≤ MAX_IMAGE_SIZE) →
        gdk_texture_real_download_surface gl t =
          (cairo_surface_in_error, (gdk_texture_download gl t none 0).2) ∧
        (gdk_texture_download gl t none 0).2 = [Event.critical])) := by
  refine ⟨?_, new_for_surface_type, new_for_pixbuf_type, ?_, ?_, ?_, ?_,
    download_log_implemented gl, rfl, ?_⟩
  · intro data width height stride t h
    unfold gdk_texture_new_for_data at h
    split_ifs at h
    exact new_for_surface_type _ t h
  · intro resource_path pixbuf t h
    unfold gdk_texture_new_from_resource at h
    split_ifs at h
    cases pixbuf with
    | none => simp at h
    | some p => exact new_for_pixbuf_type (some p) t h
  · intro is_file error_clear stream pixbuf t h
    unfold gdk_texture_new_from_file at h
    split_ifs at h
    cases pixbuf with
    | none => simp at h
    | some p => exact new_for_pixbuf_type (some p) t h
  · intro is_gl_context context id width height destroy data t h
    unfold gdk_texture_new_for_gl at h
    split_ifs at h
    simp only [Option.some.injEq] at h
    subst h
    rfl
  · intro type
    cases type <;> decide
  · intro t ht
    refine ⟨?_, ?_, ?_⟩
    · simp [gdk_texture_download_surface, GDK_TEXTURE_GET_CLASS, ht, g_type_class,
        gdk_gl_texture_class_init, gdk_texture_class_init, call_download_surface]
    · intro hw0 hw hh0 hh
      have hgs : to_gsize (4 * t.width) = (4 * t.width).toNat := by
        apply to_gsize_small
        · omega
        · unfold MAX_IMAGE_SIZE at hw
          norm_num
          omega
      have hc := create_ok t.width t.height hw0 hw hh0 hh
      simp only [gdk_texture_real_download_surface, hc, cairo_image_surface_get_data,
        cairo_image_surface_get_stride, cairo_surface_is_image, and_self, if_true, hgs]
    · intro hbad
      have hc := create_in_error t.width t.height hbad
      constructor
      · simp [gdk_texture_real_download_surface, hc, cairo_image_surface_get_data,
          cairo_image_surface_get_stride, cairo_surface_is_image, cairo_surface_in_error,
          to_gsize, gdk_texture_download]
      · rfl

/-- C16 (witness): `gdk_texture_download_surface` on the 4x4 GL texture of the scenario. -/
theorem factories_override_download_witness :
    (G_OBJECT_TYPE gl_4x4 = GType.GDK_TYPE_GL_TEXTURE ∧ 0 ≤ gl_4x4.width ∧
      gl_4x4.width ≤ MAX_IMAGE_SIZE ∧ 0 ≤ gl_4x4.height ∧ gl_4x4.height ≤ MAX_IMAGE_SIZE) ∧
    (gdk_texture_download_surface gl_clear gl_4x4 =
        gdk_texture_real_download_surface gl_clear gl_4x4 ∧
      gdk_texture_real_download_surface gl_clear gl_4x4 =
        ({ cairo_image_surface_create gl_4x4.width gl_4x4.height with
           data := (gdk_texture_download gl_clear gl_4x4
             (some (cairo_image_surface_create gl_4x4.width gl_4x4.height).data)
             (4 * gl_4x4.width).toNat).1.getD
               (cairo_image_surface_create gl_4x4.width gl_4x4.height).data },
         (gdk_texture_download gl_clear gl_4x4
           (some (cairo_image_surface_create gl_4x4.width gl_4x4.height).data)
           (4 * gl_4x4.width).toNat).2)) :=
  ⟨⟨rfl, by decide, by decide, by decide, by decide⟩,
    ((factories_override_download gl_clear).2.2.2.2.2.2.2.2.2 gl_4x4 rfl).1,
    ((factories_override_download gl_clear).2.2.2.2.2.2.2.2.2 gl_4x4 rfl).2.1 (by decide)
      (by decide) (by decide) (by decide)⟩

/-! ## One run of `progressive_timeout` (C17) -/

/-- C17: with an open `image_stream`, when the read returns 0 bytes and the loader write, the
stream close and the loader close succeed, `progressive_timeout` shows no error dialog, sets
`image_stream` and `pixbuf_loader` to `NULL`, leaves `load_timeout` (and `window`) unchanged
and returns `TRUE`; when the read returns more than 0 bytes and the write succeeds, it returns
`TRUE` and leaves the static variables unchanged.  In any state it returns `FALSE` exactly when
the read result is negative, or the write fails, or at the end of the stream a close fails, or
the stream cannot be opened. -/
theorem progressive_timeout_step (s : Images) (io : Outcomes) :
    (s.image_stream ≠ NULL → io.bytes_read = 0 → io.write_ok = true →
      io.stream_close_ok = true → io.loader_close_ok = true →
      progressive_timeout s io =
        (true, { s with image_stream := NULL, pixbuf_loader := NULL },
          [Call.read s.image_stream, Call.write s.pixbuf_loader 0,
           Call.stream_close s.image_stream, Call.unref s.image_stream,
           Call.loader_close s.pixbuf_loader, Call.unref s.pixbuf_loader])) ∧
    (s.image_stream ≠ NULL → 0 < io.bytes_read → io.write_ok = true →
      progressive_timeout s io =
        (true, s, [Call.read s.image_stream, Call.write s.pixbuf_loader io.bytes_read])) ∧
    ((progressive_timeout s io).1 = false ↔
      (s.image_stream ≠ NULL ∧
        (io.bytes_read < 0 ∨ io.write_ok = false ∨
          (io.bytes_read = 0 ∧ (io.stream_close_ok = false ∨ io.loader_close_ok = false)))) ∨
      (s.image_stream = NULL ∧ io.opened = NULL)) := by
  refine ⟨?_, ?_, ?_⟩
  · intro hs hr hw hc hl
    simp [progressive_timeout, hs, hr, hw, hc, hl]
  · intro hs hr hw
    have h1 : ¬ io.bytes_read < 0 := by omega
    have h2 : ¬ io.bytes_read = 0 := by omega
    simp [progressive_timeout, hs, h1, h2, hw]
  · unfold progressive_timeout
    by_cases hs : s.image_stream = NULL
    · by_cases ho : io.opened = NULL <;> simp [hs, ho]
    · by_cases h1 : io.bytes_read < 0
      · simp [hs, h1]
      · cases hw : io.write_ok
        · simp [hs, h1]
        · by_cases h0 : io.bytes_read = 0
          · cases hc : io.stream_close_ok <;> cases hl : io.loader_close_ok <;>
            simp [hs, h0]
          · simp [hs, h1, h0]

/-- C17 (witness): the end of the stream and a read of 200 bytes, with stream 11 and loader
12 open. -/
theorem progressive_timeout_step_witness :
    ((11 : gpointer) ≠ NULL ∧ (0 : Int) < 200) ∧
    progressive_timeout
        { window := 1, pixbuf_loader := 12, load_timeout := 3, image_stream := 11 }
        { bytes_read := 0, write_ok := true, stream_close_ok := true, loader_close_ok := true,
          opened := 0, new_loader := 13 } =
      (true, { window := 1, pixbuf_loader := NULL, load_timeout := 3, image_stream := NULL },
        [Call.read 11, Call.write 12 0, Call.stream_close 11, Call.unref 11,
         Call.loader_close 12, Call.unref 12]) ∧
    progressive_timeout
        { window := 1, pixbuf_loader := 12, load_timeout := 3, image_stream := 11 }
        { bytes_read := 200, write_ok := true, stream_close_ok := true,
          loader_close_ok := true, opened := 0, new_loader := 13 } =
      (true, { window := 1, pixbuf_loader := 12, load_timeout := 3, image_stream := 11 },
        [Call.read 11, Call.write 12 200]) :=
  ⟨⟨by decide, by decide⟩,
    (progressive_timeout_step
      { window := 1, pixbuf_loader := 12, load_timeout := 3, image_stream := 11 }
      { bytes_read := 0, write_ok := true, stream_close_ok := true, loader_close_ok := true,
        opened := 0, new_loader := 13 }).1 (by decide) rfl rfl rfl rfl,
    (progressive_timeout_step
      { window := 1, pixbuf_loader := 12, load_timeout := 3, image_stream := 11 }
      { bytes_read := 200, write_ok := true, stream_close_ok := true, loader_close_ok := true,
        opened := 0, new_loader := 13 }).2.1 (by decide) (by decide) rfl⟩

/-! ## The two states of a GL texture (C18) -/

theorem gl_download_log (gl : GLServer) (t : GdkTexture) (self : GdkGLTexture)
    (hi : t.inst = Instance.gl self) (data : Option Mem) (stride : Nat) :
    ∀ e ∈ (gdk_texture_download gl t data stride).2, e = Event.critical ∨
      (self.saved = none ∧ e = Event.gl_readback self.context self.id t.width t.height) := by
  unfold gdk_texture_download
  cases data with
  | none => simp
  | some mem =>
    simp only
    split_ifs
    · cases hs : self.saved with
      | none =>
        simp [call_download, GDK_TEXTURE_GET_CLASS, G_OBJECT_TYPE, g_type_class,
          gdk_gl_texture_class_init, hi, gdk_gl_texture_download, hs]
      | some s =>
        simp [call_download, GDK_TEXTURE_GET_CLASS, G_OBJECT_TYPE, g_type_class,
          gdk_gl_texture_class_init, hi, gdk_gl_texture_download, hs]
    · simp

theorem gl_download_surface_log (gl : GLServer) (t : GdkTexture) (self : GdkGLTexture)
    (hi : t.inst = Instance.gl self) :
    ∀ e ∈ (gdk_texture_download_surface gl t).2, e = Event.critical ∨
      (self.saved = none ∧ e = Event.gl_readback self.context self.id t.width t.height) := by
  have h : (gdk_texture_download_surface gl t).2 =
      (gdk_texture_download gl t
        (cairo_image_surface_get_data (cairo_image_surface_create t.width t.height))
        (to_gsize
          (cairo_image_surface_get_stride (cairo_image_surface_create t.width t.height)))).2 := by
    simp [gdk_texture_download_surface, GDK_TEXTURE_GET_CLASS, G_OBJECT_TYPE, hi, g_type_class,
      gdk_gl_texture_class_init, gdk_texture_class_init, call_download_surface,
      gdk_texture_real_download_surface]
  rw [h]
  exact gl_download_log gl t self hi _ _

theorem step_gl_lifecycle (gl : GLServer) (context : gpointer) (id : Nat)
    (destroy data : gpointer) (t : GdkTexture) (op : Op)
    (hinv : gl_lifecycle context id destroy data t) (hop : op ≠ Op.dispose) :
    gl_lifecycle context id destroy data (step gl t op).tex ∧
    (is_released t → is_released (step gl t op).tex) ∧
    (∀ c i w h, Event.gl_readback c i w h ∈ (step gl t op).log → c = context ∧ i = id) := by
  obtain ⟨self, hi, hshape⟩ := hinv
  have hlog : ∀ log : List Event,
      (∀ e ∈ log, e = Event.critical ∨
        (self.saved = none ∧ e = Event.gl_readback self.context self.id t.width t.height)) →
      ∀ c i w h, Event.gl_readback c i w h ∈ log → c = context ∧ i = id := by
    intro log hl c i w h hmem
    rcases hl _ hmem with hcrit | ⟨hs, he⟩
    · exact absurd hcrit (by simp)
    · rcases hshape with ⟨_, hc, hid, _, _⟩ | ⟨hsome, _⟩
      · simp only [Event.gl_readback.injEq] at he
        exact ⟨he.1.trans hc, he.2.1.trans hid⟩
      · rw [hs] at hsome
        simp at hsome
  cases op with
  | download d s =>
    exact ⟨⟨self, hi, hshape⟩, fun h => h, hlog _ (gl_download_log gl t self hi d s)⟩
  | download_surface =>
    exact ⟨⟨self, hi, hshape⟩, fun h => h, hlog _ (gl_download_surface_log gl t self hi)⟩
  | set_render_data k d n =>
    have hinst : (gdk_texture_set_render_data t k d n).2.1.inst = t.inst := by
      unfold gdk_texture_set_render_data
      split_ifs <;> rfl
    have hl : ∀ e ∈ (gdk_texture_set_render_data t k d n).2.2, e = Event.critical := by
      unfold gdk_texture_set_render_data
      split_ifs <;> simp
    refine ⟨⟨self, by simp only [step]; rw [hinst, hi], hshape⟩, ?_, ?_⟩
    · rintro ⟨s2, hg, hr⟩
      refine ⟨s2, ?_, hr⟩
      simp only [step, GDK_GL_TEXTURE] at hg ⊢
      rw [hinst]
      exact hg
    · intro c i w h hmem
      exact absurd (hl _ hmem) (by simp)
  | clear_render_data =>
    refine ⟨⟨self, by simp [step, gdk_texture_clear_render_data, hi], hshape⟩, ?_, ?_⟩
    · rintro ⟨s2, hg, hr⟩
      exact ⟨s2, by simpa [step, gdk_texture_clear_render_data, GDK_GL_TEXTURE] using hg, hr⟩
    · intro c i w h hmem
      simp only [step, gdk_texture_clear_render_data] at hmem
      split_ifs at hmem <;> simp at hmem
  | get_render_data k =>
    exact ⟨⟨self, hi, hshape⟩, fun h => h, by simp [step]⟩
  | release_gl =>
    rcases hshape with ⟨hs, hc, hid, hd, hdat⟩ | ⟨hsome, hc, hid, hd, hdat⟩
    · by_cases h0 : destroy = NULL
      · have hd0 : self.destroy = NULL := hd.trans h0
        simp [step, gdk_texture_release_gl, hi, hs, call_destroy, hd0, gl_lifecycle,
          is_released, RELEASED, GDK_GL_TEXTURE, hc, hid, hdat, h0]
        intro c i w h h1 h2 _ _
        exact ⟨h1, h2⟩
      · have hd0 : ¬ self.destroy = NULL := fun e => h0 (hd.symm.trans e)
        simp [step, gdk_texture_release_gl, hi, hs, call_destroy, hd0, gl_lifecycle,
          is_released, RELEASED, GDK_GL_TEXTURE, hc, hid, hdat, h0]
        intro c i w h h1 h2 _ _
        exact ⟨h1, h2⟩
    · obtain ⟨snap, hsnap⟩ := Option.isSome_iff_exists.mp hsome
      have hstep : step gl t Op.release_gl =
          { tex := t, ret := Ret.void, log := [Event.critical] } := by
        simp [step, gdk_texture_release_gl, hi, hsnap]
      rw [hstep]
      refine ⟨⟨self, hi, Or.inr ⟨hsome, hc, hid, hd, hdat⟩⟩, fun h => h, ?_⟩
      intro c i w h hmem
      simp at hmem
  | dispose => exact absurd rfl hop

theorem run_gl_lifecycle (gl : GLServer) (context : gpointer) (id : Nat)
    (destroy data : gpointer) (ops : List Op) :
    ∀ t : GdkTexture, gl_lifecycle context id destroy data t →
      (∀ op ∈ ops, op ≠ Op.dispose) →
      gl_lifecycle context id destroy data (run gl t ops).1 ∧
      (∀ o ∈ (run gl t ops).2, gl_lifecycle context id destroy data o.tex) ∧
      (is_released t → ∀ o ∈ (run gl t ops).2, is_released o.tex) ∧
      (∀ c i w h, Event.gl_readback c i w h ∈ events (run gl t ops).2 → c = context ∧ i = id) := by
  induction ops with
  | nil => intro t hinv _; simp [run, events, hinv]
  | cons op ops ih =>
    intro t hinv hops
    have hs := step_gl_lifecycle gl context id destroy data t op hinv
      (hops op (List.mem_cons_self _ _))
    have ih2 := ih (step gl t op).tex hs.1 (fun o ho => hops o (List.mem_cons_of_mem _ ho))
    refine ⟨ih2.1, ?_, ?_, ?_⟩
    · intro o ho
      simp only [run, List.mem_cons] at ho
      rcases ho with rfl | ho
      · exact hs.1
      · exact ih2.2.1 o ho
    · intro hrel o ho
      simp only [run, List.mem_cons] at ho
      rcases ho with rfl | ho
      · exact hs.2.1 hrel
      · exact ih2.2.2.1 (hs.2.1 hrel) o ho
    · intro c i w h hmem
      simp only [run, events_cons, List.mem_append] at hmem
      rcases hmem with hmem | hmem
      · exact hs.2.2 c i w h hmem
      · exact ih2.2.2.2 c i w h hmem

theorem new_for_gl_lifecycle (is_gl_context : Bool) (context : gpointer) (id : Nat)
    (width height : Int) (destroy data : gpointer) (t : GdkTexture)
    (hnew : (gdk_texture_new_for_gl is_gl_context context id width height destroy data).1
      = some t) :
    context ≠ NULL ∧ id ≠ 0 ∧
    t.inst = Instance.gl
      { context := context, id := id, saved := none, destroy := destroy, data := data } := by
  unfold gdk_texture_new_for_gl at hnew
  split_ifs at hnew with h1 h2 h3 h4
  simp only [Option.some.injEq] at hnew
  subst hnew
  exact ⟨h1.1, h2, rfl⟩

theorem gl_lifecycle_shape (context : gpointer) (id : Nat) (destroy data : gpointer)
    (t : GdkTexture) (hc : context ≠ NULL) (hid : id ≠ 0)
    (h : gl_lifecycle context id destroy data t) :
    ∃ self : GdkGLTexture, GDK_GL_TEXTURE t = some self ∧
      ((ACTIVE self ∧ ¬ RELEASED self) ∨
        (RELEASED self ∧ ¬ ACTIVE self ∧
          self.data = if destroy = NULL then data else NULL)) := by
  obtain ⟨self, hi, hshape⟩ := h
  refine ⟨self, by simp [GDK_GL_TEXTURE, hi], ?_⟩
  rcases hshape with ⟨hs, hctx, hi2, _, _⟩ | ⟨hsome, hctx, hi2, hd, hdat⟩
  · left
    refine ⟨⟨by simp [hs], by rw [hctx]; exact hc, by rw [hi2]; exact hid⟩, ?_⟩
    rintro ⟨h1, _⟩
    simp [hs] at h1
  · right
    refine ⟨⟨hsome, hctx, hi2, hd⟩, ?_, hdat⟩
    rintro ⟨h1, _⟩
    cases hsv : self.saved with
    | none => simp [hsv] at hsome
    | some v => simp [hsv] at h1

/-- C18 (counterexample): the GL texture returned by `gdk_texture_new_for_gl` for
`destroy == NULL` and `data == 5`, after a download, a release and a download, has
`saved != NULL`, `context == NULL`, `id == 0`, `destroy == NULL` and `data == 5`: it has
neither the ACTIVE shape nor a RELEASED shape with `data == NULL`. -/
theorem gl_released_data_not_null :
    ((gdk_texture_new_for_gl true 1 7 2 2 NULL 5).1.bind
      (fun t => GDK_GL_TEXTURE
        (run gl_clear t [Op.download (some (filled 0)) 8, Op.release_gl,
          Op.download (some (filled 0)) 8]).1)).map
      (fun self => (self.saved.isSome, self.context, self.id, self.destroy, self.data))
      = some (true, NULL, 0, NULL, 5) := by
  decide

/-- C18 (amended): the GL texture returned by `gdk_texture_new_for_gl` is ACTIVE
(`saved == NULL`, `context != NULL`, `id != 0`), and after each call of any sequence of
`gdk_texture_release_gl`, `gdk_texture_download`, `gdk_texture_download_surface` and render-data
calls it has exactly one of two shapes: ACTIVE, or RELEASED (`saved != NULL`,
`context == NULL`, `id == 0`, `destroy == NULL`), where `data` is `NULL` when a destroy callback
was given and is the pointer given at construction otherwise.  Once RELEASED the texture stays
RELEASED, and every GPU readback of the sequence is made with the context and the id given at
construction, so never with a `NULL` context or id 0. -/
theorem gl_state_invariant (gl : GLServer) (is_gl_context : Bool) (context : gpointer)
    (id : Nat) (width height : Int) (destroy data : gpointer) (t : GdkTexture) (ops : List Op)
    (hnew : (gdk_texture_new_for_gl is_gl_context context id width height destroy data).1
      = some t)
    (hops : ∀ op ∈ ops, op ≠ Op.dispose) :
    (∃ self : GdkGLTexture, GDK_GL_TEXTURE t = some self ∧ ACTIVE self) ∧
    (∀ o ∈ (run gl t ops).2, ∃ self : GdkGLTexture, GDK_GL_TEXTURE o.tex = some self ∧
      ((ACTIVE self ∧ ¬ RELEASED self) ∨
        (RELEASED self ∧ ¬ ACTIVE self ∧
          self.data = if destroy = NULL then data else NULL))) ∧
    (∀ pre post : List Op, ops = pre ++ post → is_released (run gl t pre).1 →
      ∀ o ∈ (run gl (run gl t pre).1 post).2, is_released o.tex) ∧
    (∀ c i w h, Event.gl_readback c i w h ∈ events (run gl t ops).2 →
      c = context ∧ i = id ∧ c ≠ NULL ∧ i ≠ 0) := by
  obtain ⟨hc, hid, hi⟩ :=
    new_for_gl_lifecycle is_gl_context context id width height destroy data t hnew
  have hinv : gl_lifecycle context id destroy data t :=
    ⟨_, hi, Or.inl ⟨rfl, rfl, rfl, rfl, rfl⟩⟩
  have hrun := run_gl_lifecycle gl context id destroy data ops t hinv hops
  refine ⟨?_, ?_, ?_, ?_⟩
  · refine ⟨{ context := context, id := id, saved := none, destroy := destroy, data := data },
      by simp [GDK_GL_TEXTURE, hi], rfl, hc, hid⟩
  · intro o ho
    exact gl_lifecycle_shape context id destroy data o.tex hc hid (hrun.2.1 o ho)
  · intro pre post he hrel o ho
    subst he
    have hpre := run_gl_lifecycle gl context id destroy data pre t hinv
      (fun op hop => hops op (List.mem_append_left _ hop))
    exact (run_gl_lifecycle gl context id destroy data post _ hpre.1
      (fun op hop => hops op (List.mem_append_right _ hop))).2.2.1 hrel o ho
  · intro c i w h hmem
    have := hrun.2.2.2 c i w h hmem
    exact ⟨this.1, this.2, by rw [this.1]; exact hc, by rw [this.2]; exact hid⟩

/-- C18 (witness): the amended statement at the 4x4 GL texture of the scenario and a sequence
of downloads, render-data calls and two releases. -/
theorem gl_state_invariant_witness :
    ((gdk_texture_new_for_gl true 1 7 4 4 3 5).1 = some gl_4x4 ∧
      (∀ op ∈ gl_ops, op ≠ Op.dispose)) ∧
    (∀ o ∈ (run gl_clear gl_4x4 gl_ops).2, ∃ self : GdkGLTexture,
      GDK_GL_TEXTURE o.tex = some self ∧
      ((ACTIVE self ∧ ¬ RELEASED self) ∨
        (RELEASED self ∧ ¬ ACTIVE self ∧
          self.data = if (3 : gpointer) = NULL then 5 else NULL))) ∧
    (∀ c i w h, Event.gl_readback c i w h ∈ events (run gl_clear gl_4x4 gl_ops).2 →
      c = 1 ∧ i = 7 ∧ c ≠ NULL ∧ i ≠ 0) := by
  have h1 : (gdk_texture_new_for_gl true 1 7 4 4 3 5).1 = some gl_4x4 := by
    rw [new_for_gl_eq 1 7 4 4 3 5 (by decide) (by decide) (by decide) (by decide) (by decide)
      (by decide)]
    rfl
  have h2 : ∀ op ∈ gl_ops, op ≠ Op.dispose := by
    intro op hop
    simp only [gl_ops, List.mem_cons, List.mem_singleton, List.not_mem_nil, or_false] at hop
    rcases hop with rfl | rfl | rfl | rfl | rfl | rfl | rfl | rfl | rfl <;> simp
  have h := gl_state_invariant gl_clear true 1 7 4 4 3 5 gl_4x4 gl_ops h1 h2
  exact ⟨⟨h1, h2⟩, h.2.1, h.2.2.2⟩

/-! ## The loader state over successive runs (C19) -/

theorem progressive_timeout_keeps_ready (s : Images) (io : Outcomes) (hs : loader_ready s)
    (hnew : io.new_loader ≠ NULL) :
    loader_ready (progressive_timeout s io).2.1 ∧
    (∀ loader count, Call.write loader count ∈ (progressive_timeout s io).2.2 → loader ≠ NULL) ∧
    ((progressive_timeout s io).1 = false →
      (progressive_timeout s io).2.1.image_stream = NULL ∧
      (progressive_timeout s io).2.1.load_timeout = 0) := by
  unfold loader_ready at hs ⊢
  unfold progressive_timeout
  by_cases hst : s.image_stream = NULL
  · by_cases ho : io.opened = NULL
    · simp [hst, ho]
    · by_cases hl : s.pixbuf_loader = NULL <;> simp [hst, ho, hl, hnew]
  · have hl := hs hst
    by_cases h1 : io.bytes_read < 0
    · simp [hst, h1]
    · cases hw : io.write_ok
      · simp [hst, h1]
        exact hl
      · by_cases h0 : io.bytes_read = 0
        · cases hc : io.stream_close_ok <;> cases hlc : io.loader_close_ok <;>
          simp [hst, h0] <;> exact hl
        · simp [hst, h1, h0]
          exact hl

theorem timeouts_keep_ready (ios : List Outcomes) :
    ∀ s : Images, loader_ready s → (∀ io ∈ ios, io.new_loader ≠ NULL) →
      ∀ r ∈ timeouts s ios,
        loader_ready r.2.1 ∧
        (∀ loader count, Call.write loader count ∈ r.2.2 → loader ≠ NULL) ∧
        (r.1 = false → r.2.1.image_stream = NULL ∧ r.2.1.load_timeout = 0) := by
  induction ios with
  | nil => intro s _ _ r hr; simp [timeouts] at hr
  | cons io ios ih =>
    intro s hs hnew r hr
    have hstep := progressive_timeout_keeps_ready s io hs (hnew io (List.mem_cons_self _ _))
    simp only [timeouts, List.mem_cons] at hr
    rcases hr with rfl | hr
    · exact hstep
    · exact ih _ hstep.1 (fun o ho => hnew o (List.mem_cons_of_mem _ ho)) r hr

/-- C19: starting from no stream, no loader and the timeout installed, over every sequence of
runs of `progressive_timeout` and every outcome of the reads, writes, closes and opens
(`gdk_pixbuf_loader_new` returns an object), after every run an open `image_stream` comes with
a `pixbuf_loader` that is not `NULL`, so every `gdk_pixbuf_loader_write` made in a run is on a
loader that is not `NULL`; every run that returns `FALSE` leaves `image_stream == NULL` and
`load_timeout == 0`; and `cleanup_callback` from any state leaves `image_stream == NULL`,
`pixbuf_loader == NULL` and `load_timeout == 0`. -/
theorem loader_state_invariant (window : gpointer) (id : Nat) (ios : List Outcomes)
    (hnew : ∀ io ∈ ios, io.new_loader ≠ NULL) :
    loader_ready (images_start window id) ∧
    (∀ r ∈ timeouts (images_start window id) ios,
      loader_ready r.2.1 ∧
      (∀ loader count, Call.write loader count ∈ r.2.2 → loader ≠ NULL) ∧
      (r.1 = false → r.2.1.image_stream = NULL ∧ r.2.1.load_timeout = 0)) ∧
    (∀ s : Images, (cleanup_callback s).1.image_stream = NULL ∧
      (cleanup_callback s).1.pixbuf_loader = NULL ∧ (cleanup_callback s).1.load_timeout = 0) := by
  have h0 : loader_ready (images_start window id) := by
    intro h
    exact absurd rfl h
  refine ⟨h0, timeouts_keep_ready ios _ h0 hnew, ?_⟩
  intro s
  unfold cleanup_callback
  by_cases ht : s.load_timeout = 0 <;> by_cases hl : s.pixbuf_loader = NULL <;>
  by_cases hst : s.image_stream = NULL <;> simp [ht, hl, hst]

/-- C19 (witness): a load that opens the stream, reads 200 and 56 bytes, reaches the end of
the stream and then fails to open it again. -/
theorem loader_state_invariant_witness :
    (∀ io ∈ load_outcomes, io.new_loader ≠ NULL) ∧
    (∀ r ∈ timeouts (images_start 1 3) load_outcomes,
      loader_ready r.2.1 ∧
      (∀ loader count, Call.write loader count ∈ r.2.2 → loader ≠ NULL) ∧
      (r.1 = false → r.2.1.image_stream = NULL ∧ r.2.1.load_timeout = 0)) ∧
    (timeouts (images_start 1 3) load_outcomes).map (fun r => r.1) =
      [true, true, true, true, false] :=
  ⟨by decide, (loader_state_invariant 1 3 load_outcomes (by decide)).2.1, by decide⟩

end Gdk
